import Mathlib

/-!
Shallow embedding of the NetDAQ host-side driver (Python) in Lean 4.

Source files embedded here:
  src/lib/utils/encoding.py      (wire codec)
  src/lib/config/equation.py     (stack-machine equation builder)
  src/lib/config/channels/*.py   (channel records)
  src/lib/config/instrument.py   (configuration)
  src/lib/config/equation_compiler.py (equation compiler)
  src/lib/netdaq.py              (payload assembly and reading decode)

Bytes are modelled as `ℕ` (each in 0..255), byte strings as `List ℕ`.
Python `float` values are modelled as `ℚ`.  IEEE-754 bit patterns,
rounding, and transcendental functions are floating-point behaviour and
are NOT modelled: the byte-level encoders for floats keep only the byte
*width* faithful, and the transcendental helpers are placeholders.  No
claim settled in this file depends on a float's bit pattern or on the
numeric value of a transcendental function.

Python exceptions are modelled with `Except PyErr`.
-/

/-- The kinds of Python exceptions raised by the embedded code. -/
inductive PyErr where
  /-- `ConfigError` from src/lib/config/base.py. -/
  | configError (msg : String)
  /-- Python `ValueError` (raised by channel constructors and `datetime`). -/
  | valueError (msg : String)
  /-- `ParseError` subclasses from the equation compiler. -/
  | parseError (msg : String)
  /-- Python `IndexError` from an out-of-range sequence access. -/
  | indexError
  /-- Python `ZeroDivisionError`. -/
  | zeroDivision
  /-- Python `KeyError` from a failed dict lookup. -/
  | keyError
  /-- Python `AssertionError` from a failed `assert`. -/
  | assertionError
  /-- Python `NotImplementedError`. -/
  | notImplemented
  /-- A plain Python `Exception` with a message. -/
  | exception (msg : String)
  /-- Artefact of the embedding: recursion fuel ran out.  Every use in this
  file supplies fuel provably or evidently sufficient, so this error never
  occurs on the inputs any theorem evaluates. -/
  | fuelExhausted
  deriving DecidableEq, Repr

/-! ## Wire codec — src/lib/utils/encoding.py -/

/-- `INT_LEN = 4`. -/
def INT_LEN : ℕ := 4

/-- `ZERO_INT = b"\x00" * INT_LEN` (other drafts call it `NULL_INT` /
`NULL_INTEGER`; it is four zero bytes everywhere). -/
def NULL_INT : List ℕ := [0, 0, 0, 0]

/-- Big-endian bytes of a natural number, fixed width `l`
(`int.to_bytes(value, l, "big")`).  Python raises `OverflowError` when the
value does not fit in `l` bytes; that is not modelled (the value is reduced
mod `256 ^ l`) — every call site in this file stays in range. -/
def make_int (value : ℤ) (l : ℕ) : List ℕ :=
  (List.range l).map fun i => value.toNat % 256 ^ l / 256 ^ (l - 1 - i) % 256

/-- `parse_int(data)` — `int.from_bytes(data[:4], "big")`. -/
def parse_int (data : List ℕ) : ℕ :=
  (data.take 4).foldl (fun a b => a * 256 + b) 0

/-- `parse_short(data)` — `int.from_bytes(data[:2], "big")`. -/
def parse_short (data : List ℕ) : ℕ :=
  (data.take 2).foldl (fun a b => a * 256 + b) 0

/-- `make_float(value)` — `struct.pack(">f", value)`.  The IEEE-754
single-precision bit pattern is floating-point behaviour and is not
modelled; only the byte width (4) is faithful, which is all any claim
in this file depends on. -/
def make_float (_ : ℚ) : List ℕ := [0, 0, 0, 0]

/-- `make_double(value)` — `struct.pack(">d", value)`.  Same modelling
note as `make_float`; only the byte width (8) is faithful. -/
def make_double (_ : ℚ) : List ℕ := [0, 0, 0, 0, 0, 0, 0, 0]

/-- `parse_float(data)` — `struct.unpack(">f", data[:4])[0]`.  The decoded
numeric value is floating-point behaviour and is not modelled: the reading
keeps the raw 4 bytes.  `struct` raises when fewer than 4 bytes remain. -/
def parse_float (data : List ℕ) : Except PyErr (List ℕ) :=
  if data.length < 4 then .error (.valueError "unpack requires 4 bytes")
  else .ok (data.take 4)

/-- `make_optional_indexed_bit(bit)` — `None` encodes as four zero bytes,
`Some(i)` as `make_int(1 << i)`. -/
def make_optional_indexed_bit (bit : Option ℕ) : List ℕ :=
  match bit with
  | none => NULL_INT
  | some b => make_int (2 ^ b) 4

/-- Python `int(q)` on a float: truncation toward zero. -/
def pyTrunc (q : ℚ) : ℤ := q.num.tdiv q.den

/-! ## Python `datetime` (the fragment the driver uses) -/

/-- Number of days in a month, per the proleptic Gregorian calendar used by
Python's `datetime`. -/
def days_in_month (year : ℕ) (month : ℕ) : ℕ :=
  if month = 2 then
    if year % 4 = 0 ∧ (year % 100 ≠ 0 ∨ year % 400 = 0) then 29 else 28
  else if month = 4 ∨ month = 6 ∨ month = 9 ∨ month = 11 then 30
  else 31

/-- A Python `datetime.datetime` value (the driver never uses time zones). -/
structure PyDatetime where
  year : ℕ
  month : ℕ
  day : ℕ
  hour : ℕ
  minute : ℕ
  second : ℕ
  microsecond : ℕ
  deriving DecidableEq, Repr

/-- The `datetime(...)` constructor with CPython's range checks
(`MINYEAR = 1`, `MAXYEAR = 9999`); raises `ValueError` out of range. -/
def pyDatetime (year : ℤ) (month day hour minute second microsecond : ℕ) :
    Except PyErr PyDatetime :=
  if 1 ≤ year ∧ year ≤ 9999 ∧ 1 ≤ month ∧ month ≤ 12 ∧
      1 ≤ day ∧ day ≤ days_in_month year.toNat month ∧
      hour ≤ 23 ∧ minute ≤ 59 ∧ second ≤ 59 ∧ microsecond ≤ 999999 then
    .ok ⟨year.toNat, month, day, hour, minute, second, microsecond⟩
  else
    .error (.valueError "datetime field out of range")

/-- `data[i]` on a Python byte string: `IndexError` when out of range. -/
def byteAt (data : List ℕ) (i : ℕ) : Except PyErr ℕ :=
  match data.get? i with
  | some b => .ok b
  | none => .error .indexError

/-- `parse_time(data)` from src/lib/utils/encoding.py.  The host clock
`now` (Python's `datetime.now()`) is passed explicitly.  Eight packed bytes
(hour, minute, second, month, unused, day, year-mod-100, unused) followed by
a 4-byte milliseconds word; the century comes from the host clock with the
December/January rollover compensation. -/
def parse_time (now : PyDatetime) (data : List ℕ) : Except PyErr PyDatetime := do
  let measurement_month ← byteAt data 3
  let decades_year : ℤ :=
    if measurement_month = 12 ∧ now.month = 1 then (now.year : ℤ) - 1
    else (now.year : ℤ)
  let decades_year : ℤ := decades_year - decades_year % 100
  let b0 ← byteAt data 0
  let b1 ← byteAt data 1
  let b2 ← byteAt data 2
  let b5 ← byteAt data 5
  let b6 ← byteAt data 6
  pyDatetime (decades_year + b6) measurement_month b5 b0 b1 b2
    ((parse_int (data.drop 8) &&& 0xFFFF) * 1000)

/-- `make_time(time)` from src/lib/utils/encoding.py. -/
def make_time (time : PyDatetime) : List ℕ :=
  [time.hour, time.minute, time.second, time.month, 0x00, time.day,
    time.year % 100, 0x00]

/-! ## Equation builder — src/lib/config/equation.py -/

/-- `DAQEquationOpcodeConfig` (the `args`/`lengths` columns are folded into
the typed parameters of `DAQEquationOperation` below). -/
structure DAQEquationOpcodeConfig where
  code : ℕ
  pops : ℕ
  pushes : ℕ
  deriving DecidableEq, Repr

/-- The opcodes of `DAQEquationOpcode`. -/
inductive DAQEquationOpcode where
  | END | PUSH_CHANNEL | PUSH_FLOAT | PUSH_DOUBLE | UNARY_MINUS
  | SUBTRACT | ADD | MULTIPLY | DIVIDE | POWER
  | EXP | LN | LOG | ABS | INT | SQRT
  deriving DecidableEq, Repr

/-- The `DAQEquationOpcodeConfig` table from src/lib/config/equation.py. -/
def DAQEquationOpcode.config : DAQEquationOpcode → DAQEquationOpcodeConfig
  | .END => ⟨0x00, 1, 0⟩
  | .PUSH_CHANNEL => ⟨0x01, 0, 1⟩
  | .PUSH_FLOAT => ⟨0x02, 0, 1⟩
  | .PUSH_DOUBLE => ⟨0x03, 0, 1⟩
  | .UNARY_MINUS => ⟨0x04, 1, 1⟩
  | .SUBTRACT => ⟨0x05, 2, 1⟩
  | .ADD => ⟨0x06, 2, 1⟩
  | .MULTIPLY => ⟨0x07, 2, 1⟩
  | .DIVIDE => ⟨0x08, 2, 1⟩
  | .POWER => ⟨0x09, 2, 1⟩
  | .EXP => ⟨0x0A, 1, 1⟩
  | .LN => ⟨0x0B, 1, 1⟩
  | .LOG => ⟨0x0C, 1, 1⟩
  | .ABS => ⟨0x0D, 1, 1⟩
  | .INT => ⟨0x0E, 1, 1⟩
  | .SQRT => ⟨0x0F, 1, 1⟩

/-- A `DAQEquationOperation`: an opcode together with its (type-checked)
immediate parameters.  The constructor's runtime type checks in Python are
subsumed by the typed constructors here. -/
inductive DAQEquationOperation where
  | END
  | PUSH_CHANNEL (channel : ℕ)
  | PUSH_FLOAT (value : ℚ)
  | PUSH_DOUBLE (value : ℚ)
  | UNARY_MINUS | SUBTRACT | ADD | MULTIPLY | DIVIDE | POWER
  | EXP | LN | LOG | ABS | INT | SQRT
  deriving DecidableEq, Repr

/-- `DAQEquationOperation.get_opcode`. -/
def DAQEquationOperation.get_opcode : DAQEquationOperation → DAQEquationOpcode
  | .END => .END
  | .PUSH_CHANNEL _ => .PUSH_CHANNEL
  | .PUSH_FLOAT _ => .PUSH_FLOAT
  | .PUSH_DOUBLE _ => .PUSH_DOUBLE
  | .UNARY_MINUS => .UNARY_MINUS
  | .SUBTRACT => .SUBTRACT
  | .ADD => .ADD
  | .MULTIPLY => .MULTIPLY
  | .DIVIDE => .DIVIDE
  | .POWER => .POWER
  | .EXP => .EXP
  | .LN => .LN
  | .LOG => .LOG
  | .ABS => .ABS
  | .INT => .INT
  | .SQRT => .SQRT

/-- `DAQEquationOperation.encode`: one opcode byte followed by the
immediates (u16 channel, 4-byte float, 8-byte double). -/
def DAQEquationOperation.encode : DAQEquationOperation → List ℕ
  | .PUSH_CHANNEL channel => [0x01] ++ make_int channel 2
  | .PUSH_FLOAT value => [0x02] ++ make_float value
  | .PUSH_DOUBLE value => [0x03] ++ make_double value
  | op => [op.get_opcode.config.code]

/-- The mutable state of a `DAQEquation` builder. -/
structure DAQEquation where
  ops : List DAQEquationOperation
  has_end : Bool
  has_channel : Bool
  stack_depth : ℤ
  max_stack_depth : ℤ
  input_stack_depth : ℤ
  deriving DecidableEq, Repr

/-- `DAQEquation(input_stack_depth)` — a fresh builder. -/
def DAQEquation.new (input_stack_depth : ℤ) : DAQEquation :=
  ⟨[], false, false, 0, 0, input_stack_depth⟩

/-- `DAQEquation._push_op`: rejects after `END`, checks the simulated
stack cannot underflow, updates current and maximum depth, appends. -/
def DAQEquation.push_op (e : DAQEquation) (op : DAQEquationOperation) :
    Except PyErr DAQEquation :=
  if e.has_end then
    .error (.configError "Cannot add operation to equation after end opcode")
  else
    let opcode := op.get_opcode.config
    let effective_stack_depth := e.stack_depth + e.input_stack_depth
    if effective_stack_depth < opcode.pops then
      .error (.configError "Stack underflow for opcode")
    else
      let stack_depth := e.stack_depth - opcode.pops + opcode.pushes
      .ok { e with
        ops := e.ops ++ [op]
        stack_depth := stack_depth
        max_stack_depth := max e.max_stack_depth stack_depth }

/-- `DAQEquation.append(eq)`: concatenates another equation, whose declared
input stack depth must not exceed the current depth; combines max depths. -/
def DAQEquation.append (e eq : DAQEquation) : Except PyErr DAQEquation :=
  if e.has_end then
    .error (.configError "Cannot append to equation after end opcode")
  else if e.stack_depth < eq.input_stack_depth then
    .error (.configError "Stack underflow for equation append")
  else
    .ok { e with
      ops := e.ops ++ eq.ops
      has_channel := e.has_channel || eq.has_channel
      has_end := eq.has_end
      max_stack_depth := max e.max_stack_depth (eq.max_stack_depth + e.stack_depth)
      stack_depth := e.stack_depth + eq.stack_depth }

/-- `DAQEquation.end()`: only at depth exactly 1; pushes `END` and closes. -/
def DAQEquation.endOp (e : DAQEquation) : Except PyErr DAQEquation := do
  if e.stack_depth ≠ 1 then
    .error (.configError "Invalid stack depth at end of equation")
  else do
    let e ← e.push_op .END
    .ok { e with has_end := true }

/-- `DAQEquation.push_channel(channel)`. -/
def DAQEquation.push_channel (e : DAQEquation) (channel : ℕ) :
    Except PyErr DAQEquation := do
  let e ← e.push_op (.PUSH_CHANNEL channel)
  .ok { e with has_channel := true }

/-- `DAQEquation.push_float(value)`. -/
def DAQEquation.push_float (e : DAQEquation) (value : ℚ) :
    Except PyErr DAQEquation :=
  e.push_op (.PUSH_FLOAT value)

/-- `DAQEquation.push_double(value)`. -/
def DAQEquation.push_double (e : DAQEquation) (value : ℚ) :
    Except PyErr DAQEquation :=
  e.push_op (.PUSH_DOUBLE value)

/-- `DAQEquation.validate()`. -/
def DAQEquation.validate (e : DAQEquation) : Except PyErr Unit :=
  if ¬e.has_end then .error (.configError "Equation is missing end opcode")
  else if ¬e.has_channel then
    .error (.configError "Equation requires at least one channel reference")
  else if e.input_stack_depth ≠ 0 then
    .error (.configError "Valid equation input stack depth must be 0")
  else .ok ()

/-- `DAQEquation.encode()`: validate, then concatenate operation encodings. -/
def DAQEquation.encode (e : DAQEquation) : Except PyErr (List ℕ) := do
  e.validate
  .ok (e.ops.foldl (fun acc op => acc ++ op.encode) [])

/-! ### The builder's public call interface (for claim C2) -/

/-- One public builder call on a `DAQEquation` (the push/operator/end
methods; `append` is a separate operation not part of this claim). -/
inductive BuilderCall where
  | push_channel (channel : ℕ)
  | push_float (value : ℚ)
  | push_double (value : ℚ)
  | unary_minus | subtract | add | multiply | divide | power
  | exp | ln | log | abs | int | sqrt
  | endCall
  deriving DecidableEq, Repr

/-- The operation a builder call pushes (for `endCall` this is the `END`
operation pushed by `DAQEquation.end()`). -/
def BuilderCall.operation : BuilderCall → DAQEquationOperation
  | .push_channel c => .PUSH_CHANNEL c
  | .push_float v => .PUSH_FLOAT v
  | .push_double v => .PUSH_DOUBLE v
  | .unary_minus => .UNARY_MINUS
  | .subtract => .SUBTRACT
  | .add => .ADD
  | .multiply => .MULTIPLY
  | .divide => .DIVIDE
  | .power => .POWER
  | .exp => .EXP
  | .ln => .LN
  | .log => .LOG
  | .abs => .ABS
  | .int => .INT
  | .sqrt => .SQRT
  | .endCall => .END

/-- Dispatch one public builder call, exactly as the Python methods do. -/
def applyCall (e : DAQEquation) : BuilderCall → Except PyErr DAQEquation
  | .push_channel c => e.push_channel c
  | .push_float v => e.push_float v
  | .push_double v => e.push_double v
  | .endCall => e.endOp
  | c => e.push_op c.operation

/-- Run a sequence of public builder calls on a fresh `DAQEquation()`. -/
def runCalls (calls : List BuilderCall) : Except PyErr DAQEquation :=
  calls.foldlM applyCall (DAQEquation.new 0)

/-- One step of the post-order stack simulation of an opcode: `none` when
the opcode would pop more elements than are present. -/
def simOp (depth : ℤ) (op : DAQEquationOperation) : Option ℤ :=
  if depth < op.get_opcode.config.pops then none
  else some (depth - op.get_opcode.config.pops + op.get_opcode.config.pushes)

/-- Simulate an opcode sequence from a given depth; `none` on underflow at
any step. -/
def simRun (depth : ℤ) (ops : List DAQEquationOperation) : Option ℤ :=
  ops.foldlM simOp depth

/-! ## Enums — src/lib/config/enums.py (the values the encoders use) -/

/-- `DAQConfigBits`. -/
def DAQConfigBits.MEDIUM_SPEED : ℕ := 0x0001
def DAQConfigBits.FAST_SPEED : ℕ := 0x0002
def DAQConfigBits.FAHRENHEIT : ℕ := 0x0004
def DAQConfigBits.TRIGGER_OUT : ℕ := 0x0008
def DAQConfigBits.DRIFT_CORRECTION : ℕ := 0x0010
def DAQConfigBits.TOTALIZER_DEBOUNCE : ℕ := 0x0020

/-- `DAQConfigSpeed`. -/
inductive DAQConfigSpeed where
  | SLOW | MEDIUM | FAST
  deriving DecidableEq, Repr

/-- The numeric values of `DAQConfigSpeed`. -/
def DAQConfigSpeed.value : DAQConfigSpeed → ℕ
  | .SLOW => 0x0000
  | .MEDIUM => 0x0001
  | .FAST => 0x0002

/-- `DAQConfigTrigger`. -/
inductive DAQConfigTrigger where
  | INTERVAL | ALARM | EXTERNAL
  deriving DecidableEq, Repr

/-- The numeric values of `DAQConfigTrigger`. -/
def DAQConfigTrigger.value : DAQConfigTrigger → ℕ
  | .INTERVAL => 0x0040
  | .ALARM => 0x0080
  | .EXTERNAL => 0x0100

/-- `DAQConfigAlarm`. -/
inductive DAQConfigAlarm where
  | OFF | HIGH | LOW
  deriving DecidableEq, Repr

/-- The numeric values of `DAQConfigAlarm`. -/
def DAQConfigAlarm.value : DAQConfigAlarm → ℕ
  | .OFF => 0x00
  | .HIGH => 0x01
  | .LOW => 0x02

/-- `DAQAnalogMeasuremenType` (spelling as in the source). -/
inductive DAQAnalogMeasuremenType where
  | OFF | Ohms | VDC | VAC | Frequency | RTD | Thermocouple | Current
  deriving DecidableEq, Repr

/-- The numeric values of `DAQAnalogMeasuremenType`. -/
def DAQAnalogMeasuremenType.value : DAQAnalogMeasuremenType → ℕ
  | .OFF => 0x00000000
  | .Ohms => 0x00000001
  | .VDC => 0x00000002
  | .VAC => 0x00000004
  | .Frequency => 0x00000008
  | .RTD => 0x00000010
  | .Thermocouple => 0x00000020
  | .Current => 0x00010002

/-- `DAQComputedMeasurementType`. -/
inductive DAQComputedMeasurementType where
  | OFF | Average | AminusB | AminusAvg | Equation
  deriving DecidableEq, Repr

/-- The numeric values of `DAQComputedMeasurementType`.  Note that
`AminusAvg = 0x00008003` is declared in src/lib/config/enums.py but is
never referenced by any encoder in the repository. -/
def DAQComputedMeasurementType.value : DAQComputedMeasurementType → ℕ
  | .OFF => 0x00000000
  | .Average => 0x00008001
  | .AminusB => 0x00008002
  | .AminusAvg => 0x00008003
  | .Equation => 0x00008004

/-- `DAQOhmsRange`. -/
inductive DAQOhmsRange where
  | Ohms_300 | Ohms_3k | Ohms_30k | Ohms_300k | Ohms_3M | Ohms_AUTO
  deriving DecidableEq, Repr

/-- The numeric values of `DAQOhmsRange`. -/
def DAQOhmsRange.value : DAQOhmsRange → ℕ
  | .Ohms_300 => 0x1001
  | .Ohms_3k => 0x1102
  | .Ohms_30k => 0x1204
  | .Ohms_300k => 0x1308
  | .Ohms_3M => 0x1410
  | .Ohms_AUTO => 0x1520

/-- `DAQVDCRange`. -/
inductive DAQVDCRange where
  | VDC_90mV | VDC_300mV | VDC_3V | VDC_30V | VDC_AUTO | VDC_50V
  deriving DecidableEq, Repr

/-- The numeric values of `DAQVDCRange`. -/
def DAQVDCRange.value : DAQVDCRange → ℕ
  | .VDC_90mV => 0x2001
  | .VDC_300mV => 0x2102
  | .VDC_3V => 0x2308
  | .VDC_30V => 0x2410
  | .VDC_AUTO => 0x2520
  | .VDC_50V => 0x2640

/-- `DAQVACRange`. -/
inductive DAQVACRange where
  | VAC_300mV | VAC_3V | VAC_30V | VAC_AUTO
  deriving DecidableEq, Repr

/-- The numeric values of `DAQVACRange`. -/
def DAQVACRange.value : DAQVACRange → ℕ
  | .VAC_300mV => 0x3001
  | .VAC_3V => 0x3102
  | .VAC_30V => 0x3204
  | .VAC_AUTO => 0x3308

/-- `DAQCurrentRange`. -/
inductive DAQCurrentRange where
  | Current_20mA | Current_100mA
  deriving DecidableEq, Repr

/-- The numeric values of `DAQCurrentRange`. -/
def DAQCurrentRange.value : DAQCurrentRange → ℕ
  | .Current_20mA => 0x2102
  | .Current_100mA => 0x2520

/-- `DAQThermocoupleRange`. -/
inductive DAQThermocoupleRange where
  | TC_J | TC_K | TC_E | TC_T | TC_R | TC_S | TC_B | TC_C | TC_N
  deriving DecidableEq, Repr

/-- The numeric values of `DAQThermocoupleRange`. -/
def DAQThermocoupleRange.value : DAQThermocoupleRange → ℕ
  | .TC_J => 0x6001
  | .TC_K => 0x6101
  | .TC_E => 0x6201
  | .TC_T => 0x6301
  | .TC_R => 0x6401
  | .TC_S => 0x6501
  | .TC_B => 0x6601
  | .TC_C => 0x6701
  | .TC_N => 0x6801

/-- `DAQRTDRange`. -/
inductive DAQRTDRange where
  | RTD_FIXED_385 | RTD_CUSTOM_385
  deriving DecidableEq, Repr

/-- The numeric values of `DAQRTDRange`. -/
def DAQRTDRange.value : DAQRTDRange → ℕ
  | .RTD_FIXED_385 => 0x5020
  | .RTD_CUSTOM_385 => 0x5021

/-! ## Channels — src/lib/config/channels/base.py, analog.py, computed.py -/

/-- The common fields of `DAQChannel` (alarm trailer plus m·x + b). -/
structure DAQChannelCommon where
  use_channel_as_alarm_trigger : Bool
  alarm1_mode : DAQConfigAlarm
  alarm2_mode : DAQConfigAlarm
  alarm1_level : ℚ
  alarm2_level : ℚ
  alarm1_digital : Option ℕ
  alarm2_digital : Option ℕ
  mxab_multuplier : ℚ
  mxab_offset : ℚ
  deriving DecidableEq, Repr

/-- The Python field defaults of `DAQChannel`. -/
def DAQChannelCommon.default : DAQChannelCommon :=
  ⟨true, .OFF, .OFF, 0, 0, none, none, 1, 0⟩

/-- `DAQChannel.encode_common_trailer`: the 28-byte common trailer. -/
def DAQChannelCommon.encode_common_trailer (c : DAQChannelCommon) : List ℕ :=
  let alarm_bits :=
    (if c.use_channel_as_alarm_trigger then 0x01 else 0x00) |||
      (c.alarm1_mode.value <<< 1) ||| (c.alarm2_mode.value <<< 3)
  make_int alarm_bits 4
    ++ make_float c.alarm1_level
    ++ make_float c.alarm2_level
    ++ make_optional_indexed_bit c.alarm1_digital
    ++ make_optional_indexed_bit c.alarm2_digital
    ++ make_float c.mxab_multuplier
    ++ make_float c.mxab_offset

/-- The channel families of the repository as one tagged type
(`DAQDisabledChannel`, the `DAQAnalog*Channel`s of analog.py and the
`DAQComputed*Channel`s of computed.py). -/
inductive DAQChannel where
  | disabled (common : DAQChannelCommon)
  | ohms (range : DAQOhmsRange) (four_wire : Bool) (common : DAQChannelCommon)
  | vdc (range : DAQVDCRange) (common : DAQChannelCommon)
  | vac (range : DAQVACRange) (common : DAQChannelCommon)
  | frequency (common : DAQChannelCommon)
  | rtd (range : DAQRTDRange) (alpha : ℚ) (r0 : ℚ) (common : DAQChannelCommon)
  | thermocouple (range : DAQThermocoupleRange) (open_thermocouple_detect : Bool)
      (common : DAQChannelCommon)
  | current (range : DAQCurrentRange) (shunt_resistance : ℚ)
      (common : DAQChannelCommon)
  | computedAverage (channel_bitmask : ℕ) (common : DAQChannelCommon)
  | computedAminusB (channel_a : ℕ) (channel_b : ℕ) (common : DAQChannelCommon)
  | computedAminusAvg (channel_a : ℕ) (channel_bitmask : ℕ)
      (common : DAQChannelCommon)
  | computedEquation (equation : DAQEquation) (common : DAQChannelCommon)
  deriving DecidableEq, Repr

/-- The `__post_init__` validation of each channel constructor (raises
`ValueError` on the rejected combinations). -/
def DAQChannel.post_init (c : DAQChannel) : Except PyErr Unit :=
  match c with
  | .ohms range four_wire _ =>
    if ¬four_wire ∧ (range = .Ohms_300 ∨ range = .Ohms_3k) then
      .error (.valueError "2-wire ohms measurement is not supported for 300 or 3k Ohms range")
    else .ok ()
  | .rtd range alpha r0 _ =>
    if r0 < 10 ∨ r0 > 1010 then
      .error (.valueError "Custom RTD R0 value must be between 10 and 1010 Ohms")
    else if range = .RTD_FIXED_385 ∧ alpha ≠ 0 then
      .error (.valueError "Fixed RTD does not allow for Alpha value to be set")
    else if range = .RTD_CUSTOM_385 ∧ (alpha < 0.00374 ∨ alpha > 0.00393) then
      .error (.valueError "Custom RTD Alpha value must be between 0.00374 and 0.00393")
    else .ok ()
  | .current _ shunt_resistance _ =>
    if shunt_resistance < 10 ∨ shunt_resistance > 250 then
      .error (.valueError "Shunt resistance must be between 10 and 250 Ohms")
    else .ok ()
  | _ => .ok ()

/-- `encode()` of every channel class: the five 4-byte head fields followed
by the common trailer.  `DAQComputedEquationChannel` does not override
`encode`, so the base class raises `NotImplementedError` (it is only ever
encoded through `encode_with_aux`). -/
def DAQChannel.encode : DAQChannel → Except PyErr (List ℕ)
  | .disabled common =>
    .ok (NULL_INT ++ NULL_INT ++ NULL_INT ++ NULL_INT ++ NULL_INT
      ++ common.encode_common_trailer)
  | .ohms range four_wire common =>
    let extra_bits : ℕ := 0x9000 ||| (if four_wire then 0x0001 else 0)
    .ok (make_int (DAQAnalogMeasuremenType.Ohms.value) 4
      ++ make_int range.value 4 ++ NULL_INT ++ NULL_INT
      ++ make_int extra_bits 4 ++ common.encode_common_trailer)
  | .vdc range common =>
    .ok (make_int (DAQAnalogMeasuremenType.VDC.value) 4
      ++ make_int range.value 4 ++ NULL_INT ++ NULL_INT ++ NULL_INT
      ++ common.encode_common_trailer)
  | .vac range common =>
    .ok (make_int (DAQAnalogMeasuremenType.VAC.value) 4
      ++ make_int range.value 4 ++ NULL_INT ++ NULL_INT ++ NULL_INT
      ++ common.encode_common_trailer)
  | .frequency common =>
    .ok (make_int (DAQAnalogMeasuremenType.Frequency.value) 4
      ++ NULL_INT ++ NULL_INT ++ NULL_INT ++ NULL_INT
      ++ common.encode_common_trailer)
  | .rtd range alpha r0 common =>
    .ok (make_int (DAQAnalogMeasuremenType.RTD.value) 4
      ++ make_int range.value 4 ++ make_float alpha ++ make_float r0
      ++ make_int 0x9001 4 ++ common.encode_common_trailer)
  | .thermocouple range open_thermocouple_detect common =>
    let extra_bits := if open_thermocouple_detect then 0x0001 else 0x0000
    .ok (make_int (DAQAnalogMeasuremenType.Thermocouple.value) 4
      ++ make_int range.value 4 ++ NULL_INT ++ NULL_INT
      ++ make_int extra_bits 4 ++ common.encode_common_trailer)
  | .current range shunt_resistance common =>
    let extra_bits : ℕ := 0x7000 ||| (if range = .Current_100mA then 0x0001 else 0)
    .ok (make_int (DAQAnalogMeasuremenType.Current.value) 4
      ++ make_int range.value 4 ++ make_float shunt_resistance ++ NULL_INT
      ++ make_int extra_bits 4 ++ common.encode_common_trailer)
  | .computedAverage channel_bitmask common =>
    .ok (make_int (DAQComputedMeasurementType.Average.value) 4
      ++ NULL_INT ++ NULL_INT ++ NULL_INT ++ make_int channel_bitmask 4
      ++ common.encode_common_trailer)
  | .computedAminusB channel_a channel_b common =>
    .ok (make_int (DAQComputedMeasurementType.AminusB.value) 4
      ++ NULL_INT ++ make_int channel_a 4 ++ NULL_INT ++ make_int channel_b 4
      ++ common.encode_common_trailer)
  | .computedAminusAvg channel_a channel_bitmask common =>
    .ok (make_int (DAQComputedMeasurementType.AminusB.value) 4
      ++ NULL_INT ++ make_int channel_a 4 ++ NULL_INT
      ++ make_int channel_bitmask 4 ++ common.encode_common_trailer)
  | .computedEquation _ _ => .error .notImplemented

/-- `encode_with_aux(aux_offset)`: `DAQComputedEquationChannel` overrides it
to place the auxiliary-region offset in the fifth head field and return the
equation's bytecode as the auxiliary blob; every other channel defers to
`encode` with an empty blob. -/
def DAQChannel.encode_with_aux (c : DAQChannel) (aux_offset : ℕ) :
    Except PyErr (List ℕ × List ℕ) :=
  match c with
  | .computedEquation equation common => do
    let eq_bytes ← equation.encode
    .ok (make_int (DAQComputedMeasurementType.Equation.value) 4
      ++ NULL_INT ++ NULL_INT ++ NULL_INT ++ make_int aux_offset 4
      ++ common.encode_common_trailer, eq_bytes)
  | c => do
    let r ← c.encode
    .ok (r, [])

/-! ## Configuration — src/lib/config/instrument.py and
`NetDAQ.set_config` from src/lib/netdaq.py -/

/-- `DAQConfiguration`.  The two channel lists are modelled as lists of
`Option DAQChannel` because `set_config` pads the very list objects the
caller supplied with `None` entries in place (`analog_channels += [None
...]` on the aliased list mutates `config.analog_channels`); a caller's
own entries are `some` channels. -/
structure DAQConfiguration where
  speed : DAQConfigSpeed
  temperature_fahrenheit : Bool
  trigger_out : Bool
  drift_correction : Bool
  totalizer_debounce : Bool
  triggers : List DAQConfigTrigger
  interval_time : ℚ
  alarm_time : ℚ
  analog_channels : List (Option DAQChannel)
  computed_channels : List (Option DAQChannel)
  deriving DecidableEq, Repr

/-- `DAQConfiguration.bits()`. -/
def DAQConfiguration.bits (c : DAQConfiguration) : ℕ :=
  let result := c.speed.value
  let result :=
    if c.drift_correction ∨ c.speed ≠ .FAST then
      result ||| DAQConfigBits.DRIFT_CORRECTION
    else result
  let result := if c.trigger_out then result ||| DAQConfigBits.TRIGGER_OUT else result
  let result :=
    if c.temperature_fahrenheit then result ||| DAQConfigBits.FAHRENHEIT else result
  let result :=
    if c.totalizer_debounce then result ||| DAQConfigBits.TOTALIZER_DEBOUNCE
    else result
  c.triggers.foldl (fun acc trig => acc ||| trig.value) result

/-- `CHANNEL_PAYLOAD_LENGTH = 2492` from src/lib/netdaq.py. -/
def CHANNEL_PAYLOAD_LENGTH : ℕ := 2492

/-- The per-channel loop of `NetDAQ.set_config`: a `None` slot encodes the
disabled channel and marks `had_none_channels`; an enabled slot after a
`None` one sets `has_none_channel_prefixes`.  Each record is appended to
the payload and each auxiliary blob (offset = current auxiliary length) to
the auxiliary buffer. -/
def set_config_channels_loop (chans : List (Option DAQChannel))
    (payload aux_buffer : List ℕ) (had_none has_prefixes : Bool) :
    Except PyErr (List ℕ × List ℕ × Bool × Bool) :=
  match chans with
  | [] => .ok (payload, aux_buffer, had_none, has_prefixes)
  | c :: rest =>
    let (chan, had_none, has_prefixes) :=
      match c with
      | none => (DAQChannel.disabled DAQChannelCommon.default, true, has_prefixes)
      | some ch => (ch, had_none, has_prefixes || had_none)
    match chan.encode_with_aux aux_buffer.length with
    | .error e => .error e
    | .ok (res, equation) =>
      set_config_channels_loop rest (payload ++ res) (aux_buffer ++ equation)
        had_none has_prefixes

/-- The global header of the `SET_CONFIG` payload: bits word, two zero
words, interval seconds and milliseconds, two zero words, alarm seconds and
milliseconds, three zero words, and the constant `0x00000064`. -/
def set_config_header (config : DAQConfiguration) : List ℕ :=
  make_int config.bits 4
    ++ NULL_INT ++ NULL_INT
    ++ make_int (pyTrunc config.interval_time) 4
    ++ make_int ((pyTrunc (config.interval_time * 1000)).emod 1000) 4
    ++ NULL_INT ++ NULL_INT
    ++ make_int (pyTrunc config.alarm_time) 4
    ++ make_int ((pyTrunc (config.alarm_time * 1000)).emod 1000) 4
    ++ NULL_INT ++ NULL_INT ++ NULL_INT
    ++ [0x00, 0x00, 0x00, 0x64]

/-- The `Except` part of `set_config` once the two channel lists have been
padded: run the channel loops over both lists, append the auxiliary region,
reject payloads longer than the 2492-byte envelope, right-pad shorter ones
with zeros. -/
def set_config_payload_calc (config : DAQConfiguration)
    (analog_channels computed_channels : List (Option DAQChannel)) :
    Except PyErr (List ℕ) :=
  let payload := set_config_header config
  match set_config_channels_loop analog_channels payload [] false false with
  | .error e => .error e
  | .ok (payload, aux_buffer, _, has_prefixes) =>
    match set_config_channels_loop computed_channels payload aux_buffer
        false has_prefixes with
    | .error e => .error e
    | .ok (payload, aux_buffer, _, _) =>
      let payload := payload ++ aux_buffer
      let length_left : ℤ := (CHANNEL_PAYLOAD_LENGTH : ℤ) - payload.length
      if length_left < 0 then
        .error (.configError "Payload too large (too many equations?)")
      else
        .ok (payload ++ List.replicate (CHANNEL_PAYLOAD_LENGTH - payload.length) 0)

/-- The payload-assembly part of `NetDAQ.set_config` (everything before the
`send_rpc` call, which is transport).  Besides the `Except`-wrapped payload
the result carries the contents of the caller's two channel-list objects
after the call returns or raises: the in-place `+=` padding is visible to
the caller even when a later step raises. -/
def set_config (config : DAQConfiguration) :
    (Except PyErr (List ℕ)) × List (Option DAQChannel) × List (Option DAQChannel) :=
  let max_analog_channels := 20
  if max_analog_channels < config.analog_channels.length then
    (.error (.configError "Too many analog channels"),
      config.analog_channels, config.computed_channels)
  else
    let analog_channels :=
      config.analog_channels ++
        List.replicate (max_analog_channels - config.analog_channels.length) none
    let max_computed_channels := 10
    if max_computed_channels < config.computed_channels.length then
      (.error (.configError "Too many computed channels"),
        analog_channels, config.computed_channels)
    else
      let computed_channels :=
        config.computed_channels ++
          List.replicate (max_computed_channels - config.computed_channels.length) none
      (set_config_payload_calc config analog_channels computed_channels,
        analog_channels, computed_channels)

/-! ## Readings — `DAQReading` / `NetDAQ.get_readings` from src/lib/netdaq.py -/

/-- `DAQReading`.  Per the modelling note on `parse_float`, each per-channel
value is kept as its raw 4-byte big-endian slice. -/
structure DAQReading where
  time : PyDatetime
  dio : ℕ
  alarm1_bitmask : ℕ
  alarm2_bitmask : ℕ
  totalizer : ℕ
  values : List (List ℕ)
  deriving DecidableEq, Repr

/-- `DAQReading.get_dio_status(index)`. -/
def DAQReading.get_dio_status (r : DAQReading) (index : ℕ) : Bool :=
  r.dio &&& (1 <<< index) ≠ 0

/-- `DAQReading.is_channel_alarm1(index)` — tests the alarm-1 bitmask. -/
def DAQReading.is_channel_alarm1 (r : DAQReading) (index : ℕ) : Bool :=
  r.alarm1_bitmask &&& (1 <<< index) ≠ 0

/-- `DAQReading.is_channel_alarm2(index)` — as written in the source it
reads `self.alarm1_bitmask` (not `alarm2_bitmask`). -/
def DAQReading.is_channel_alarm2 (r : DAQReading) (index : ℕ) : Bool :=
  r.alarm1_bitmask &&& (1 <<< index) ≠ 0

/-- `DAQReadingResult`. -/
structure DAQReadingResult where
  readings : List DAQReading
  instrument_queue : ℕ
  deriving DecidableEq, Repr

/-- The list comprehension
`[parse_float(chunk_data[i:]) for i in range(28, len(chunk_data), 4)]`. -/
def chunk_values (chunk_data : List ℕ) : Except PyErr (List (List ℕ)) :=
  let count := if chunk_data.length ≤ 28 then 0 else (chunk_data.length - 28 + 3) / 4
  (List.range count).mapM fun k => parse_float (chunk_data.drop (28 + 4 * k))

/-- One iteration of the `get_readings` chunk loop: slice chunk `i` out of
`chunks_buf`, check the `0x10` marker word, and decode the fields —
packed time at offset 4 (its milliseconds word reads bytes 12–16), u16
DIO at 12, u32 alarm-1 at 16, u32 alarm-2 at 20, u32 totalizer at 24,
4-byte floats from 28 to the end of the chunk. -/
def decode_chunk (now : PyDatetime) (chunks_buf : List ℕ) (chunk_length : ℕ)
    (i : ℕ) : Except PyErr DAQReading := do
  let chunk_data := (chunks_buf.drop (i * chunk_length)).take chunk_length
  if parse_int chunk_data ≠ 0x10 then
    throw (.exception "Invalid chunk header")
  else do
    let time ← parse_time now (chunk_data.drop 4)
    let values ← chunk_values chunk_data
    pure (⟨time, parse_short (chunk_data.drop 12), parse_int (chunk_data.drop 16),
      parse_int (chunk_data.drop 20), parse_int (chunk_data.drop 24), values⟩ : DAQReading)

/-- The `for i in range(chunk_count)` loop of `get_readings`, from index
`i` with `remaining` iterations left, collecting the decoded readings in
order. -/
def decode_chunks_loop (now : PyDatetime) (chunks_buf : List ℕ)
    (chunk_length : ℕ) (i : ℕ) (remaining : ℕ) : Except PyErr (List DAQReading) :=
  match remaining with
  | 0 => .ok []
  | remaining + 1 => do
    let r ← decode_chunk now chunks_buf chunk_length i
    let rest ← decode_chunks_loop now chunks_buf chunk_length (i + 1) remaining
    .ok (r :: rest)

/-- The response-decoding part of `NetDAQ.get_readings` (the payload has
already been received; `now` is the host clock used by `parse_time`).
Payload header: chunk length, chunk count, remaining queue, then
`chunk_count` chunks of `chunk_length` bytes each. -/
def get_readings_decode (now : PyDatetime) (data : List ℕ) :
    Except PyErr DAQReadingResult := do
  let chunk_length := parse_int data
  let chunk_count := parse_int (data.drop 4)
  let instrument_queue := parse_int (data.drop 8)
  let chunks_buf := data.drop 12
  let readings ← decode_chunks_loop now chunks_buf chunk_length 0 chunk_count
  .ok ⟨readings, instrument_queue⟩

/-! ## Equation compiler — src/lib/config/equation_compiler.py -/

/-- `DAQEquationTokenType` (ids and allowed-predecessor ids as in the
`DAQEquationTokenTypeDC` table). -/
inductive DAQEquationTokenType where
  | UNKNOWN | CHANNEL | OPERATOR | FUNCTION | FLOAT
  | OPENING_BRACKET | CLOSING_BRACKET | UNARY_OPERATOR
  | BEGIN | END
  deriving DecidableEq, Repr

/-- The `id` field of each token type. -/
def DAQEquationTokenType.id : DAQEquationTokenType → ℕ
  | .UNKNOWN => 0
  | .CHANNEL => 1
  | .OPERATOR => 2
  | .FUNCTION => 3
  | .FLOAT => 4
  | .OPENING_BRACKET => 5
  | .CLOSING_BRACKET => 6
  | .UNARY_OPERATOR => 7
  | .BEGIN => 100
  | .END => 101

/-- The `prev` field (ids of the token types allowed to precede). -/
def DAQEquationTokenType.prev : DAQEquationTokenType → List ℕ
  | .UNKNOWN => []
  | .CHANNEL => [0, 2, 5, 7, 100]
  | .OPERATOR => [1, 4, 6]
  | .FUNCTION => [0, 2, 5, 7, 100]
  | .FLOAT => [0, 2, 5, 7, 100]
  | .OPENING_BRACKET => [0, 2, 3, 5, 7, 100]
  | .CLOSING_BRACKET => [1, 4, 6]
  | .UNARY_OPERATOR => [0, 1, 2, 4, 6, 7, 100]
  | .BEGIN => []
  | .END => [1, 4, 6]

/-- `DAQEquationToken` (`begin`/`end` are renamed `beginPos`/`endPos`, `end`
being a Lean keyword). -/
structure DAQEquationToken where
  token : String
  token_type : DAQEquationTokenType
  beginPos : ℕ
  endPos : ℕ
  begins_with_whitespace : Bool
  deriving DecidableEq, Repr

/-- Python `src.lower()` (character-wise lowercasing). -/
def pyLower (s : String) : String := String.mk (s.data.map Char.toLower)

/-- Python `s[0]` probe: the first character, if any. -/
def strHead? (s : String) : Option Char := s.data.head?

/-- Python `s[-1]` probe: the last character, if any. -/
def strLast? (s : String) : Option Char := s.data.getLast?

/-- Python `s[1:]`. -/
def strTail (s : String) : String := String.mk s.data.tail

/-- Python `s[:-1]`. -/
def strDropLast (s : String) : String := String.mk s.data.dropLast

/-- Decimal value of a digit run. -/
def digitsValN (cs : List Char) : ℕ :=
  cs.foldl (fun a c => a * 10 + (c.toNat - 48)) 0

/-- Python `int(s)` on a token string: optional sign then a non-empty digit
run; `None` models the `ValueError`. -/
def pyParseInt (s : String) : Option ℤ :=
  match s.data with
  | [] => none
  | '-' :: rest =>
    if rest ≠ [] ∧ rest.all Char.isDigit then some (-(digitsValN rest : ℤ)) else none
  | '+' :: rest =>
    if rest ≠ [] ∧ rest.all Char.isDigit then some (digitsValN rest : ℤ) else none
  | cs =>
    if cs.all Char.isDigit then some (digitsValN cs : ℤ) else none

/-- Python `float(s)` on a token string, as an exact rational:
optional sign, digits with at most one point (at least one digit), optional
`e`-exponent.  (Rounding to binary64 is floating-point behaviour and is not
modelled; the special strings `inf`/`nan` cannot reach this parser.)
`None` models the `ValueError`. -/
def pyParseFloat (s : String) : Option ℚ :=
  let p : ℚ × List Char :=
    match s.data with
    | '-' :: r => (-1, r)
    | '+' :: r => (1, r)
    | r => (1, r)
  let sign := p.1
  let ip := p.2.takeWhile Char.isDigit
  let cs := p.2.dropWhile Char.isDigit
  let q : List Char × List Char :=
    match cs with
    | '.' :: r => (r.takeWhile Char.isDigit, r.dropWhile Char.isDigit)
    | r => ([], r)
  let fp := q.1
  let cs := q.2
  if ip = [] ∧ fp = [] then none
  else
    let mant : ℚ := (digitsValN ip * 10 ^ fp.length + digitsValN fp : ℕ) /
      ((10 : ℚ) ^ fp.length)
    match cs with
    | [] => some (sign * mant)
    | 'e' :: r =>
      let pe : ℤ × List Char :=
        match r with
        | '-' :: r2 => (-1, r2)
        | '+' :: r2 => (1, r2)
        | r2 => (1, r2)
      if pe.2 ≠ [] ∧ pe.2.all Char.isDigit then
        some (sign * mant * (10 : ℚ) ^ (pe.1 * digitsValN pe.2))
      else none
    | _ => none

/-- `UNARY_OPERATORS`, `OPERATORS`, `COMMUTATIVE_OPERATORS`, `FUNCTIONS`. -/
def UNARY_OPERATORS : List String := ["+", "-"]
def OPERATORS : List String := ["*", "^", "**", "/"]
def COMMUTATIVE_OPERATORS : List String := ["+", "*"]
def FUNCTIONS : List String := ["exp", "ln", "log", "abs", "int", "sqrt"]

/-- `OPTERATOR_PRECEDENCE` (spelling as in the source); `none` models a
`KeyError` on lookup. -/
def OPTERATOR_PRECEDENCE (token : String) : Option ℤ :=
  if token = "+" ∨ token = "-" then some 1000
  else if token = "*" ∨ token = "/" then some 2000
  else if token = "^" ∨ token = "**" then some 3000
  else none

/-- `DAQEquationToken.validate()`. -/
def DAQEquationToken.validate (t : DAQEquationToken) : Except PyErr Unit :=
  match t.token_type with
  | .UNKNOWN => .error (.parseError "Unknown token type for token")
  | .CHANNEL =>
    let channel_token :=
      if strHead? t.token = some '-' then strTail t.token else t.token
    if strHead? channel_token ≠ some 'c' then
      .error (.parseError "Invalid channel token (does not begin with c)")
    else
      match pyParseInt (strTail channel_token) with
      | none => .error (.parseError "Invalid channel token")
      | some n =>
        if n ≤ 0 then
          .error (.parseError "Invalid channel token (channel number must be greater than 0)")
        else .ok ()
  | .FLOAT =>
    let float_token :=
      if strLast? t.token = some 'f' ∨ strLast? t.token = some 'd' then
        strDropLast t.token
      else t.token
    if (pyParseFloat float_token).isNone then
      .error (.parseError "Invalid float token")
    else .ok ()
  | .OPERATOR =>
    if t.token ∈ OPERATORS then .ok ()
    else .error (.parseError "Invalid operator token")
  | .UNARY_OPERATOR =>
    if t.token ∈ UNARY_OPERATORS then .ok ()
    else .error (.parseError "Invalid maybe-unary operator token")
  | .FUNCTION =>
    let func_token :=
      if strHead? t.token = some '-' then strTail t.token else t.token
    if func_token ∈ FUNCTIONS then .ok ()
    else .error (.parseError "Invalid function token")
  | _ => .ok ()

/-- The closure state of `DAQEQuationCompiler.tokenize` (the `nonlocal`
variables). -/
structure TokenizerState where
  tokens : List DAQEquationToken
  current_token_begin : ℕ
  current_token_str : String
  current_token_match_type : ℕ
  current_token_beings_with_whitespace : Bool
  current_token_type : DAQEquationTokenType
  deriving DecidableEq, Repr

/-- `push_token_validate`. -/
def push_token_validate (st : TokenizerState) (token : DAQEquationToken) :
    Except PyErr TokenizerState := do
  let _ ← token.validate
  .ok { st with tokens := st.tokens ++ [token] }

/-- `push_current_token(pos, push_also, token_type)`. -/
def push_current_token (st : TokenizerState) (pos : ℕ) (push_also : String)
    (token_type : DAQEquationTokenType) : Except PyErr TokenizerState := do
  let st ←
    if st.current_token_str ≠ "" then do
      let st ← push_token_validate st
        ⟨st.current_token_str, st.current_token_type, st.current_token_begin,
          pos - 1, st.current_token_beings_with_whitespace⟩
      pure { st with
        current_token_str := ""
        current_token_type := token_type
        current_token_match_type := 0
        current_token_beings_with_whitespace := false }
    else pure st
  let st := { st with current_token_begin := pos }
  if push_also ≠ "" then do
    let st ← push_token_validate st
      ⟨push_also, token_type, pos, pos, st.current_token_beings_with_whitespace⟩
    pure { st with current_token_beings_with_whitespace := false }
  else pure st

/-- `push_if_not_type(token_match_type, pos, token_type)`. -/
def push_if_not_type (st : TokenizerState) (token_match_type : ℕ) (pos : ℕ)
    (token_type : DAQEquationTokenType) : Except PyErr TokenizerState := do
  let st ←
    if st.current_token_match_type ≠ token_match_type then
      push_current_token st pos "" token_type
    else pure st
  pure { st with
    current_token_type := token_type
    current_token_match_type := token_match_type }

/-- One iteration of the `tokenize` character loop (the character is
already lowercased). -/
def tokenize_char (st : TokenizerState) (i : ℕ) (c : Char) :
    Except PyErr TokenizerState :=
  if c = '*' then do
    let st ←
      if st.current_token_str ≠ "*" ∧ st.current_token_str ≠ "" then
        push_current_token st i "" .OPERATOR
      else pure st
    let st := { st with
      current_token_type := .OPERATOR
      current_token_str := st.current_token_str.push c }
    if st.current_token_str = "**" then push_current_token st i "" .UNKNOWN
    else pure st
  else if c = '+' ∨ c = '-' then
    if st.current_token_match_type = 1 ∧ strLast? st.current_token_str = some 'e' then
      .ok { st with current_token_str := st.current_token_str.push c }
    else
      push_current_token st i (String.mk [c]) .UNARY_OPERATOR
  else if c = '^' ∨ c = '/' then
    push_current_token st i (String.mk [c]) .OPERATOR
  else if c = '(' then
    push_current_token st i (String.mk [c]) .OPENING_BRACKET
  else if c = ')' then
    push_current_token st i (String.mk [c]) .CLOSING_BRACKET
  else if c.isDigit ∨ c = '.' then
    let p : DAQEquationTokenType × TokenizerState :=
      if st.current_token_str ≠ "" ∧ strHead? st.current_token_str = some 'c' then
        (.CHANNEL,
          if st.current_token_str.length = 1 then
            { st with current_token_match_type := 1 }
          else st)
      else (.FLOAT, st)
    do
      let st ← push_if_not_type p.2 1 i p.1
      .ok { st with current_token_str := st.current_token_str.push c }
  else if c = ' ' then do
    let st ← push_current_token st i "" .UNKNOWN
    .ok { st with current_token_beings_with_whitespace := true }
  else
    if st.current_token_match_type = 1 ∧ (c = 'e' ∨ c = 'f' ∨ c = 'd') then
      .ok { st with current_token_str := st.current_token_str.push c }
    else do
      let st ← push_if_not_type st 2 i .FUNCTION
      .ok { st with current_token_str := st.current_token_str.push c }

/-- `DAQEQuationCompiler.tokenize(src)`. -/
def tokenize (src : String) : Except PyErr (List DAQEquationToken) := do
  let init : TokenizerState := ⟨[], 0, "", 0, false, .UNKNOWN⟩
  let st ← ((pyLower src).data.enum).foldlM
    (fun st (p : ℕ × Char) => tokenize_char st p.1 p.2) init
  let st ← push_current_token st src.length "" .UNKNOWN
  .ok st.tokens

/-- The loop body of `DAQEQuationCompiler.integrate_unary_minusplus`:
`tokens` is the full input list (for `tokens[i-1]` and slice lookups),
`rest` the tokens not yet visited (`rest = tokens.drop i`), `first_unary`
the index of the first unary operator of the pending run (Python's
`first_unary_token`, `-1` becoming `none`). -/
def integrate_unary_loop (tokens : List DAQEquationToken) (i : ℕ)
    (rest : List DAQEquationToken) (new_tokens : List DAQEquationToken)
    (first_unary : Option ℕ) : Except PyErr (List DAQEquationToken) :=
  match rest with
  | [] => .ok new_tokens
  | token :: rest =>
    if token.token_type = .UNARY_OPERATOR then
      match first_unary with
      | none =>
        let prev_token := if i > 0 then tokens.get? (i - 1) else none
        match prev_token with
        | some pt =>
          if pt.token_type ≠ .OPERATOR ∧ pt.token_type ≠ .UNARY_OPERATOR ∧
              pt.token_type ≠ .OPENING_BRACKET then
            integrate_unary_loop tokens (i + 1) rest (new_tokens ++ [token]) none
          else
            integrate_unary_loop tokens (i + 1) rest new_tokens (some i)
        | none => integrate_unary_loop tokens (i + 1) rest new_tokens (some i)
      | some fu =>
        if token.begins_with_whitespace then
          .error (.parseError "Invalid expression (unary operator chain cannot have whitespace inside of it)")
        else
          integrate_unary_loop tokens (i + 1) rest new_tokens (some fu)
    else
      if token.begins_with_whitespace then
        integrate_unary_loop tokens (i + 1) rest (new_tokens ++ [token]) none
      else
        match first_unary with
        | none => integrate_unary_loop tokens (i + 1) rest (new_tokens ++ [token]) none
        | some fu =>
          let all_unary_tokens := (tokens.drop fu).take (i - fu)
          let minus_count := (all_unary_tokens.filter (fun t => t.token = "-")).length
          let new_token_value :=
            if minus_count % 2 = 1 then
              if strHead? token.token = some '-' then strTail token.token
              else "-" ++ token.token
            else token.token
          let fu_begin :=
            match tokens.get? fu with
            | some t => t.beginPos
            | none => 0
          let new_token : DAQEquationToken :=
            ⟨new_token_value, token.token_type, fu_begin, token.endPos, false⟩
          match new_token.validate with
          | .error e => .error e
          | .ok _ =>
            integrate_unary_loop tokens (i + 1) rest (new_tokens ++ [new_token]) none

/-- `DAQEQuationCompiler.integrate_unary_minusplus(tokens)`. -/
def integrate_unary_minusplus (tokens : List DAQEquationToken) :
    Except PyErr (List DAQEquationToken) :=
  integrate_unary_loop tokens 0 tokens [] none

/-- The loop of `DAQEQuationCompiler.validate_token_order`, from index `i`
with the running bracket counter; `remaining` counts the iterations left
(the loop runs for indices `0 .. tokens.length`, index `tokens.length`
being the synthetic `END` pseudo-token; the predecessor of index 0 is the
`BEGIN` pseudo-token), after which the bracket counter must be zero. -/
def validate_token_order_loop (tokens : List DAQEquationToken) (i : ℕ)
    (bracket_counter : ℤ) (remaining : ℕ) : Except PyErr Unit :=
  match remaining with
  | 0 =>
    if bracket_counter ≠ 0 then
      .error (.parseError "Invalid expression (unclosed brackets)")
    else .ok ()
  | remaining + 1 =>
    let token_type :=
      if i = tokens.length then DAQEquationTokenType.END
      else
        match tokens.get? i with
        | some t => t.token_type
        | none => .UNKNOWN
    let prev_type :=
      if i = 0 then DAQEquationTokenType.BEGIN
      else
        match tokens.get? (i - 1) with
        | some t => t.token_type
        | none => .UNKNOWN
    let bracket_counter :=
      if token_type = .OPENING_BRACKET then bracket_counter + 1
      else if token_type = .CLOSING_BRACKET then bracket_counter - 1
      else bracket_counter
    if token_type = .CLOSING_BRACKET ∧ bracket_counter < 0 then
      .error (.parseError "Invalid expression (closing bracket without opening bracket)")
    else if prev_type.id ∉ token_type.prev then
      .error (.parseError "Invalid token order (token cannot follow token)")
    else
      validate_token_order_loop tokens (i + 1) bracket_counter remaining

/-- `DAQEQuationCompiler.validate_token_order(tokens)` (an empty token list
returns immediately). -/
def validate_token_order (tokens : List DAQEquationToken) : Except PyErr Unit :=
  if tokens = [] then .ok ()
  else validate_token_order_loop tokens 0 0 (tokens.length + 1)

/-- `DAQEquationTokenTreeNode`: children plus an optional anchor token. -/
inductive DAQEquationTokenTreeNode where
  | mk (nodes : List DAQEquationTokenTreeNode) (value : Option DAQEquationToken)

/-- The `nodes` field. -/
def DAQEquationTokenTreeNode.nodes : DAQEquationTokenTreeNode →
    List DAQEquationTokenTreeNode
  | .mk ns _ => ns

/-- The `value` field. -/
def DAQEquationTokenTreeNode.value : DAQEquationTokenTreeNode →
    Option DAQEquationToken
  | .mk _ v => v

/-- `DAQEQuationCompiler.build_token_tree(tokens, value=value)`, with the
explicit accumulator `acc` standing for the `token_tree.nodes` being built
and the unconsumed tokens returned (Python mutates the shared list with
`pop(0)`).  `fuel` bounds the recursion depth; `2 * tokens.length + 2` is
always sufficient. -/
def build_token_tree (fuel : ℕ) (tokens : List DAQEquationToken)
    (acc : List DAQEquationTokenTreeNode) (value : Option DAQEquationToken) :
    Except PyErr (DAQEquationTokenTreeNode × List DAQEquationToken) :=
  match fuel with
  | 0 => .error .fuelExhausted
  | fuel + 1 =>
    let finalize (acc : List DAQEquationTokenTreeNode)
        (remaining : List DAQEquationToken) :
        Except PyErr (DAQEquationTokenTreeNode × List DAQEquationToken) :=
      match acc, value with
      | [], _ => .error (.parseError "Invalid expression (empty tree)")
      | [n], none => .ok (n, remaining)
      | acc, value => .ok (.mk acc value, remaining)
    match tokens with
    | [] => finalize acc []
    | token :: rest =>
      if token.token_type = .FUNCTION then
        match rest with
        | [] => .error .indexError
        | token_must_be_bracket :: rest2 =>
          if token_must_be_bracket.token_type ≠ .OPENING_BRACKET then
            .error (.parseError "Invalid expression (function must be followed by an opening bracket)")
          else
            match build_token_tree fuel rest2 [] (some token) with
            | .error e => .error e
            | .ok (child, remaining) =>
              build_token_tree fuel remaining (acc ++ [child]) value
      else if token.token_type = .OPENING_BRACKET then
        match build_token_tree fuel rest [] none with
        | .error e => .error e
        | .ok (child, remaining) =>
          build_token_tree fuel remaining (acc ++ [child]) value
      else if token.token_type = .CLOSING_BRACKET then
        finalize acc rest
      else
        build_token_tree fuel rest (acc ++ [.mk [] (some token)]) value

/-- True when an (optional) neighbouring node holds a `FLOAT` token — the
precedence "deprioritize operators that operate on constants" test. -/
def isFloatNode : Option DAQEquationTokenTreeNode → Bool
  | some n =>
    match n.value with
    | some t => t.token_type = .FLOAT
    | none => false
  | none => false

/-- The pivot-selection loop of
`DAQEquationTokenTreeNode._simplify_token_tree_shallow`: walks the children
left to right; for each operator/unary-operator child looks up the base
precedence (`KeyError` when absent), subtracts 1 per adjacent `FLOAT`
neighbour, skips it when the adjusted precedence is strictly below the best
so far (initially 0), and otherwise records it as the new best.  Returns
Python's `best_operator` (an index into `all`). -/
def find_best_operator_loop (all : List DAQEquationTokenTreeNode)
    (rest : List DAQEquationTokenTreeNode) (i : ℕ) (best : Option ℕ)
    (best_p : ℤ) : Except PyErr (Option ℕ) :=
  match rest with
  | [] => .ok best
  | sub_node :: rest =>
    match sub_node.value with
    | some v =>
      if v.token_type = .OPERATOR ∨ v.token_type = .UNARY_OPERATOR then
        match OPTERATOR_PRECEDENCE v.token with
        | none => .error .keyError
        | some p =>
          let p := if i > 0 ∧ isFloatNode (all.get? (i - 1)) then p - 1 else p
          let p := if isFloatNode (all.get? (i + 1)) then p - 1 else p
          if p < best_p then find_best_operator_loop all rest (i + 1) best best_p
          else find_best_operator_loop all rest (i + 1) (some i) p
      else find_best_operator_loop all rest (i + 1) best best_p
    | none => find_best_operator_loop all rest (i + 1) best best_p

/-- The pivot chosen by `_simplify_token_tree_shallow` for a child list. -/
def find_best_operator (nodes : List DAQEquationTokenTreeNode) :
    Except PyErr (Option ℕ) :=
  find_best_operator_loop nodes nodes 0 none 0

/-- `DAQEquationTokenTreeNode._simplify_token_tree_shallow`.  A single-child
anonymous node collapses to its child; nodes of fewer than 4 children are
untouched; otherwise the node splits at the selected pivot operator into
(left children, pivot, right children) and both sides are shallow-simplified.
`fuel` bounds the recursion depth; `nodes.length + 1` is always sufficient
(each side is strictly shorter). -/
def simplify_token_tree_shallow (fuel : ℕ) (node : DAQEquationTokenTreeNode) :
    Except PyErr DAQEquationTokenTreeNode :=
  match fuel with
  | 0 => .error .fuelExhausted
  | fuel + 1 =>
    match node with
    | .mk nodes value =>
      match nodes, value with
      | [n], none => .ok n
      | nodes, value =>
        if nodes.length < 4 then .ok (.mk nodes value)
        else
          match find_best_operator nodes with
          | .error e => .error e
          | .ok none => .error (.parseError "Invalid token tree (no operators found)")
          | .ok (some best_operator) =>
            match nodes.get? best_operator with
            | none => .error .indexError
            | some best_node =>
              match simplify_token_tree_shallow fuel
                  (.mk (nodes.take best_operator) none) with
              | .error e => .error e
              | .ok new_tree_left =>
                match simplify_token_tree_shallow fuel
                    (.mk (nodes.drop (best_operator + 1)) none) with
                | .error e => .error e
                | .ok new_tree_right =>
                  .ok (.mk [new_tree_left, .mk [] best_node.value,
                    new_tree_right] value)

/-- `DAQEquationTokenTreeNode.simplify_token_tree`: post-order — simplify
every child deeply, then simplify this node shallowly.  `fuel` bounds the
recursion depth; any number at least the tree depth is sufficient. -/
def simplify_token_tree (fuel : ℕ) (node : DAQEquationTokenTreeNode) :
    Except PyErr DAQEquationTokenTreeNode :=
  match fuel with
  | 0 => .error .fuelExhausted
  | fuel + 1 =>
    match node with
    | .mk nodes value => do
      let nodes' ← nodes.mapM (simplify_token_tree fuel)
      simplify_token_tree_shallow (nodes'.length + 1) (.mk nodes' value)

/-- `math.exp` on a float.  Transcendental floating-point functions are not
modelled (any claim depending on their values would not be statable); the
placeholder returns 0.  No claim in this file evaluates it. -/
def pyExp (_ : ℚ) : ℚ := 0

/-- `math.log` (natural log); same modelling note as `pyExp`. -/
def pyLogE (_ : ℚ) : ℚ := 0

/-- `math.log10`; same modelling note as `pyExp`. -/
def pyLog10 (_ : ℚ) : ℚ := 0

/-- `math.sqrt`; same modelling note as `pyExp`. -/
def pySqrt (_ : ℚ) : ℚ := 0

/-- Python float `**`; same modelling note as `pyExp`. -/
def pyPowF (_ _ : ℚ) : ℚ := 0

/-- `math.fabs` (exact on rationals). -/
def pyFabs (q : ℚ) : ℚ := |q|

/-- `float(trunc(q))` (exact on rationals). -/
def pyTruncF (q : ℚ) : ℚ := (pyTrunc q : ℚ)

/-- `str(float)`.  Python's `repr` of a binary64 float is floating-point
behaviour and is not modelled bit-exactly; the placeholder prints the
rational.  No claim in this file depends on the printed form. -/
def pyFloatRepr (q : ℚ) : String := toString q

/-- The function application of `resolve_constant_expression`
(`exp`, `ln`, `log`, `abs`, `int`, `sqrt`); unknown names raise. -/
def apply_constant_function (func_token : String) (token_value : ℚ) :
    Except PyErr ℚ :=
  if func_token = "exp" then .ok (pyExp token_value)
  else if func_token = "ln" then .ok (pyLogE token_value)
  else if func_token = "log" then .ok (pyLog10 token_value)
  else if func_token = "abs" then .ok (pyFabs token_value)
  else if func_token = "int" then .ok (pyTruncF token_value)
  else if func_token = "sqrt" then .ok (pySqrt token_value)
  else .error (.parseError "Unhandled function token for constant expression")

/-- The binary-operator application of `resolve_constant_expression`;
division by zero raises `ZeroDivisionError`, unknown operators raise. -/
def apply_constant_operator (op_token : String) (value_left value_right : ℚ) :
    Except PyErr ℚ :=
  if op_token = "+" then .ok (value_left + value_right)
  else if op_token = "-" then .ok (value_left - value_right)
  else if op_token = "*" then .ok (value_left * value_right)
  else if op_token = "/" then
    if value_right = 0 then .error .zeroDivision
    else .ok (value_left / value_right)
  else if op_token = "^" ∨ op_token = "**" then .ok (pyPowF value_left value_right)
  else .error (.parseError "Unhandled operator token for constant expression")

/-- `float(token)` in the compiler: raises `ValueError` on failure. -/
def pyFloatOfToken (s : String) : Except PyErr ℚ :=
  match pyParseFloat s with
  | some q => .ok q
  | none => .error (.valueError "could not convert string to float")

/-- `DAQEquationTokenTreeNode.resolve_constant_expression` (post-order).
A single anonymous child replaces the node; a single `FLOAT` child under a
`FUNCTION` anchor evaluates the function (note: as in the source, the node's
value is then set to the *child's* float token and the computed value is
discarded) and drops the children; a three-child node with `FLOAT` outer
children folds the operator into a new `FLOAT` token spanning both.
`fuel` bounds the recursion depth; any number at least the tree depth is
sufficient. -/
def resolve_constant_expression (fuel : ℕ) (node : DAQEquationTokenTreeNode) :
    Except PyErr DAQEquationTokenTreeNode :=
  match fuel with
  | 0 => .error .fuelExhausted
  | fuel + 1 =>
  match node with
  | .mk nodes0 value => do
    let nodes ← nodes0.mapM (resolve_constant_expression fuel)
    match nodes, value with
    | [sub_node], none => .ok (.mk sub_node.nodes sub_node.value)
    | [sub_node], some v =>
      match sub_node.value with
      | none => .ok (.mk [sub_node] (some v))
      | some sv =>
        if sv.token_type ≠ .FLOAT then .ok (.mk [sub_node] (some v))
        else if v.token_type ≠ .FUNCTION then
          .error (.parseError "Invalid constant expression")
        else do
          let func_token :=
            if strHead? v.token = some '-' then strTail v.token else v.token
          let do_negate := strHead? v.token = some '-'
          let token_value ← pyFloatOfToken sv.token
          let token_value ← apply_constant_function func_token token_value
          let _ := if do_negate then -token_value else token_value
          .ok (.mk [] (some sv))
    | nodes, value =>
      if nodes.length ≠ 3 then .ok (.mk nodes value)
      else
        match nodes.get? 0, nodes.get? 1, nodes.get? 2 with
        | some node_left, some node_op, some node_right =>
          match node_left.value, node_right.value with
          | some lv, some rv =>
            if lv.token_type = .FLOAT ∧ rv.token_type = .FLOAT then do
              let value_left ← pyFloatOfToken lv.token
              let value_right ← pyFloatOfToken rv.token
              match node_op.value with
              | none => .error (.parseError "Operator token for constant expression (missing token)")
              | some op =>
                if op.token_type ≠ .OPERATOR ∧ op.token_type ≠ .UNARY_OPERATOR then
                  .error (.parseError "Invalid operator token for constant expression")
                else do
                  let new_float_value ←
                    apply_constant_operator op.token value_left value_right
                  .ok (.mk [] (some ⟨pyFloatRepr new_float_value, .FLOAT,
                    lv.beginPos, rv.endPos, false⟩))
            else .ok (.mk nodes value)
          | _, _ => .ok (.mk nodes value)
        | _, _, _ => .error .indexError

/-- `DAQEquationTokenTreeNode._emit_token(token, eq)`. -/
def emit_token (token : DAQEquationToken) (eq : DAQEquation) :
    Except PyErr DAQEquation :=
  match token.token_type with
  | .CHANNEL => do
    let do_negate := strHead? token.token = some '-'
    let channel_token := if do_negate then strTail token.token else token.token
    let n ←
      match pyParseInt (strTail channel_token) with
      | some n => Except.ok n
      | none => Except.error (.valueError "invalid literal for int")
    let eq ← eq.push_channel n.toNat
    if do_negate then eq.push_op .UNARY_MINUS else .ok eq
  | .FLOAT => do
    let token_str := token.token
    let is_double := strLast? token_str = some 'd'
    let token_str :=
      if strLast? token_str = some 'f' ∨ strLast? token_str = some 'd' then
        strDropLast token_str
      else token_str
    let token_val ← pyFloatOfToken token_str
    if is_double then eq.push_double token_val else eq.push_float token_val
  | .OPERATOR | .UNARY_OPERATOR =>
    if token.token = "+" then eq.push_op .ADD
    else if token.token = "-" then eq.push_op .SUBTRACT
    else if token.token = "*" then eq.push_op .MULTIPLY
    else if token.token = "/" then eq.push_op .DIVIDE
    else if token.token = "^" ∨ token.token = "**" then eq.push_op .POWER
    else .error (.parseError "Unhandled operator token for emit")
  | .FUNCTION => do
    let do_negate := strHead? token.token = some '-'
    let func_token := if do_negate then strTail token.token else token.token
    let eq ←
      if func_token = "exp" then eq.push_op .EXP
      else if func_token = "ln" then eq.push_op .LN
      else if func_token = "log" then eq.push_op .LOG
      else if func_token = "abs" then eq.push_op .ABS
      else if func_token = "int" then eq.push_op .INT
      else if func_token = "sqrt" then eq.push_op .SQRT
      else .error (.parseError "Unhandled function token for emit")
    if do_negate then eq.push_op .UNARY_MINUS else .ok eq
  | _ => .ok eq

/-- `DAQEquationTokenTreeNode.emit(eq)`: one child emits recursively; two
children emit the operand then the unary anchor; three children emit both
operands (right first when the operator is commutative and that uses
strictly less peak stack, via `DAQEquation.append`) then the operator; the
node's own anchor token, if any, is emitted last; the `assert`s on stack
depths are modelled as `AssertionError` checks.  `fuel` bounds the
recursion depth; any number at least the tree depth is sufficient. -/
def emit (fuel : ℕ) (node : DAQEquationTokenTreeNode) (eq : DAQEquation) :
    Except PyErr DAQEquation :=
  match fuel with
  | 0 => .error .fuelExhausted
  | fuel + 1 =>
  match node with
  | .mk nodes value => do
    let old_stack_depth := eq.stack_depth
    let eq ←
      match nodes with
      | [a] => emit fuel a eq
      | [a, b] =>
        match a.value with
        | none => .error (.parseError "Invalid token tree (missing unary operator node value)")
        | some av => do
          let eq ← emit fuel b eq
          emit_token av eq
      | [a, opn, b] =>
        match opn.value with
        | none => .error (.parseError "Invalid token tree (missing binary operator node value)")
        | some operator => do
          let eq_a ← emit fuel a (DAQEquation.new 0)
          let _ ← if eq_a.stack_depth = 1 then Except.ok () else Except.error PyErr.assertionError
          let eq_b ← emit fuel b (DAQEquation.new 0)
          let _ ← if eq_b.stack_depth = 1 then Except.ok () else Except.error PyErr.assertionError
          let eq ←
            if operator.token ∈ COMMUTATIVE_OPERATORS ∧
                eq_a.max_stack_depth < eq_b.max_stack_depth then do
              let eq ← eq.append eq_b
              eq.append eq_a
            else do
              let eq ← eq.append eq_a
              eq.append eq_b
          emit_token operator eq
      | _ => .ok eq
    let eq ←
      match value with
      | some v => emit_token v eq
      | none => .ok eq
    if eq.stack_depth ≠ old_stack_depth + 1 then .error .assertionError
    else .ok eq

/-- `DAQEQuationCompiler.compile(src)`: tokenize, fold unary runs, validate
order, build the tree, simplify, constant-fold, emit, close with `END`,
validate. -/
def DAQEQuationCompiler.compile (src : String) : Except PyErr DAQEquation := do
  let tokens ← tokenize src
  let tokens ← integrate_unary_minusplus tokens
  let _ ← validate_token_order tokens
  let tt ← build_token_tree (2 * tokens.length + 2) tokens [] none
  let token_tree := tt.1
  let fuel := 4 * tokens.length + 8
  let token_tree ← simplify_token_tree fuel token_tree
  let token_tree ← resolve_constant_expression fuel token_tree
  let eq := DAQEquation.new 0
  let eq ← emit fuel token_tree eq
  let eq ← eq.endOp
  let _ ← eq.validate
  .ok eq

/-- Modelled from the spec's words, for comparison with
`find_best_operator` (claim C7): "locate the pivot operator with the
*lowest* adjusted precedence; on ties, the leftmost wins", the adjusted
precedence being the base precedence minus 1 per adjacent float literal. -/
def spec_lowest_pivot_loop (all : List DAQEquationTokenTreeNode)
    (rest : List DAQEquationTokenTreeNode) (i : ℕ) (best : Option ℕ)
    (best_p : Option ℤ) : Except PyErr (Option ℕ) :=
  match rest with
  | [] => .ok best
  | sub_node :: rest =>
    match sub_node.value with
    | some v =>
      if v.token_type = .OPERATOR ∨ v.token_type = .UNARY_OPERATOR then
        match OPTERATOR_PRECEDENCE v.token with
        | none => .error .keyError
        | some p =>
          let p := if i > 0 ∧ isFloatNode (all.get? (i - 1)) then p - 1 else p
          let p := if isFloatNode (all.get? (i + 1)) then p - 1 else p
          match best_p with
          | none => spec_lowest_pivot_loop all rest (i + 1) (some i) (some p)
          | some bp =>
            if p < bp then spec_lowest_pivot_loop all rest (i + 1) (some i) (some p)
            else spec_lowest_pivot_loop all rest (i + 1) best (some bp)
      else spec_lowest_pivot_loop all rest (i + 1) best best_p
    | none => spec_lowest_pivot_loop all rest (i + 1) best best_p

/-- The lowest-adjusted-precedence, leftmost-on-ties pivot of the spec. -/
def spec_lowest_pivot (nodes : List DAQEquationTokenTreeNode) :
    Except PyErr (Option ℕ) :=
  spec_lowest_pivot_loop nodes nodes 0 none none

/-- The float list of the *claimed* chunk layout (claim C5): 4-byte floats
filling the remainder of the chunk starting at offset 32. -/
def chunk_values_claimed (chunk_data : List ℕ) : Except PyErr (List (List ℕ)) :=
  let count := if chunk_data.length ≤ 32 then 0 else (chunk_data.length - 32 + 3) / 4
  (List.range count).mapM fun k => parse_float (chunk_data.drop (32 + 4 * k))

/-- Chunk decoding at the layout claim C5 states (modelled from the spec's
words, for comparison with `decode_chunk`): 0x10 marker at 0, 8-byte packed
time at 4, 4 unused bytes, u16 DIO at 16, 2 unused bytes, u32 alarm-1 at
20, u32 alarm-2 at 24, u32 totalizer at 28, floats from 32. -/
def decode_chunk_claimed (now : PyDatetime) (chunks_buf : List ℕ)
    (chunk_length : ℕ) (i : ℕ) : Except PyErr DAQReading := do
  let chunk_data := (chunks_buf.drop (i * chunk_length)).take chunk_length
  if parse_int chunk_data ≠ 0x10 then
    throw (.exception "Invalid chunk header")
  else do
    let time ← parse_time now (chunk_data.drop 4)
    let values ← chunk_values_claimed chunk_data
    pure (⟨time, parse_short (chunk_data.drop 16), parse_int (chunk_data.drop 20),
      parse_int (chunk_data.drop 24), parse_int (chunk_data.drop 28), values⟩ : DAQReading)

/-- The chunk loop of the claimed layout (claim C5). -/
def decode_chunks_loop_claimed (now : PyDatetime) (chunks_buf : List ℕ)
    (chunk_length : ℕ) (i : ℕ) (remaining : ℕ) : Except PyErr (List DAQReading) :=
  match remaining with
  | 0 => .ok []
  | remaining + 1 => do
    let r ← decode_chunk_claimed now chunks_buf chunk_length i
    let rest ← decode_chunks_loop_claimed now chunks_buf chunk_length (i + 1) remaining
    .ok (r :: rest)

/-- `get_readings` decoding at the layout claim C5 states (modelled from
the spec's words, for comparison with `get_readings_decode`). -/
def get_readings_decode_claimed (now : PyDatetime) (data : List ℕ) :
    Except PyErr DAQReadingResult := do
  let chunk_length := parse_int data
  let chunk_count := parse_int (data.drop 4)
  let instrument_queue := parse_int (data.drop 8)
  let chunks_buf := data.drop 12
  let readings ← decode_chunks_loop_claimed now chunks_buf chunk_length 0 chunk_count
  .ok ⟨readings, instrument_queue⟩

/-- The children of the token tree the compiler builds for the source
string `"c1 + c2 * c3"` — the five-child interior node
`C1, +, C2, *, C3` that `_simplify_token_tree_shallow` must split. -/
def sum_product_children : Except PyErr (List DAQEquationTokenTreeNode) := do
  let tokens ← tokenize "c1 + c2 * c3"
  let tokens ← integrate_unary_minusplus tokens
  let tt ← build_token_tree (2 * tokens.length + 2) tokens [] none
  .ok tt.1.nodes

/-- A host-clock value used to decode example readings: 2025-10-12. -/
def example_now : PyDatetime := ⟨2025, 10, 12, 0, 0, 0, 0⟩

/-- An example `GET_READINGS` response payload: chunk length 44, one chunk,
empty queue; the chunk has the 0x10 marker, packed time 12:34:56 on
March 4 of year ..25, the byte pair `00 FF` at offset 12, `12 34` at
offset 16, the word 5 at offset 20, the word 7 at offset 24, and 16 further
bytes. -/
def example_readings_payload : List ℕ :=
  [0, 0, 0, 44, 0, 0, 0, 1, 0, 0, 0, 0] ++
    ([0, 0, 0, 0x10, 12, 34, 56, 3, 0, 4, 25, 0,
      0x00, 0xFF, 0, 0, 0x12, 0x34, 0, 0, 0, 0, 0, 5, 0, 0, 0, 7] ++
      List.replicate 16 0)

/-- Chunk `j` of a `GET_READINGS` payload, as `get_readings` slices it:
`chunks_buf[j*chunk_length : (j+1)*chunk_length]` with `chunks_buf =
data[12:]` and `chunk_length` the first payload word. -/
def chunk_slice (data : List ℕ) (j : ℕ) : List ℕ :=
  ((data.drop 12).drop (j * parse_int data)).take (parse_int data)

/-- A minimal configuration: interval trigger, 1 s interval, no user
channels. -/
def example_min_config : DAQConfiguration :=
  ⟨.SLOW, false, false, true, true, [.INTERVAL], 1, 1, [], []⟩

/-- A configuration with a single VDC analog channel. -/
def example_short_config : DAQConfiguration :=
  ⟨.SLOW, false, false, true, true, [.INTERVAL], 1, 1,
    [some (.vdc .VDC_3V DAQChannelCommon.default)], []⟩

/-- A valid (end-terminated, channel-referencing) equation of 401
operations whose bytecode is 1201 bytes — enough to overflow the 2492-byte
envelope. -/
def example_big_equation : DAQEquation :=
  ⟨List.replicate 400 (.PUSH_CHANNEL 1) ++ [.END], true, true, 1, 1, 0⟩

/-- A configuration whose assembled payload exceeds the envelope: one
computed equation channel carrying `example_big_equation`
(52 + 30·48 + 1201 = 2693 > 2492 bytes). -/
def example_overfull_config : DAQConfiguration :=
  ⟨.SLOW, false, false, true, true, [.INTERVAL], 1, 1, [],
    [some (.computedEquation example_big_equation DAQChannelCommon.default)]⟩

/-- The reachability invariant of the `DAQEquation` builder: the public
constructor starts at input depth 0; the tracked `stack_depth` equals the
simulated depth of the recorded opcodes (so the simulation never
underflows), it is never negative, and once `END` has been appended it is
the final opcode and the simulated depth just before it was exactly 1. -/
def EqBuilderInv (e : DAQEquation) : Prop :=
  e.input_stack_depth = 0 ∧ 0 ≤ e.stack_depth ∧
    simRun 0 e.ops = some e.stack_depth ∧
    (e.has_end = true → ∃ pre, e.ops = pre ++ [.END] ∧ simRun 0 pre = some 1)

/-- Decidable equality for `Except` results (both components decidable). -/
instance instDecidableEqExceptPy {e a : Type} [DecidableEq e] [DecidableEq a] :
    DecidableEq (Except e a) := fun x y =>
  match x, y with
  | .ok u, .ok v => if h : u = v then .isTrue (by rw [h]) else .isFalse (by simp [h])
  | .error u, .error v => if h : u = v then .isTrue (by rw [h]) else .isFalse (by simp [h])
  | .ok _, .error _ => .isFalse (by simp)
  | .error _, .ok _ => .isFalse (by simp)

/-! ## Theorems -/

/-- `make_int` always produces exactly `l` bytes. -/
theorem make_int_length (value : ℤ) (l : ℕ) : (make_int value l).length = l := by
  simp [make_int]

/-- The common trailer is always 28 bytes. -/
theorem encode_common_trailer_length (c : DAQChannelCommon) :
    c.encode_common_trailer.length = 28 := by
  rcases c with ⟨u, a1, a2, l1, l2, d1, d2, m, b⟩
  cases d1 <;> cases d2 <;>
    simp [DAQChannelCommon.encode_common_trailer, make_int_length, make_float,
      make_optional_indexed_bit, NULL_INT]

/-- C9: `DAQReading.is_channel_alarm2(i)` tests bit `i` of the **alarm-1**
bitmask — as written in the source — so it coincides with
`is_channel_alarm1` on every reading and every bit index. -/
theorem is_channel_alarm2_reads_alarm1 (r : DAQReading) (i : ℕ) :
    r.is_channel_alarm2 i = r.is_channel_alarm1 i ∧
      (r.is_channel_alarm2 i = true ↔ r.alarm1_bitmask &&& (1 <<< i) ≠ 0) := by
  refine ⟨rfl, ?_⟩
  simp [DAQReading.is_channel_alarm2]

/-- C6: encoding `DAQComputedAminusAvgChannel` writes the `AminusB` family
code `0x00008002` — not the claimed `0x00008003` — as its first 32-bit head
field (evaluated at channel A = 1, bitmask = 3; the enum's unused
`AminusAvg` value would encode as `00 00 80 03`). -/
theorem aminusavg_encode_first_field :
    (DAQChannel.encode (.computedAminusAvg 1 3 DAQChannelCommon.default)).map
        (List.take 4) = .ok [0x00, 0x00, 0x80, 0x02] ∧
      make_int (DAQComputedMeasurementType.AminusAvg.value) 4 =
        [0x00, 0x00, 0x80, 0x03] ∧
      ([0x00, 0x00, 0x80, 0x02] : List ℕ) ≠ [0x00, 0x00, 0x80, 0x03] := by
  decide

/-- C3 (amended): every channel record produced by `encode_with_aux` is
exactly 48 bytes — five 4-byte head fields plus the 28-byte common
trailer. -/
theorem channel_record_length (c : DAQChannel) (aux_offset : ℕ)
    (rec aux : List ℕ) (h : c.encode_with_aux aux_offset = .ok (rec, aux)) :
    rec.length = 48 := by
  cases c <;>
    simp only [DAQChannel.encode_with_aux, DAQChannel.encode, bind,
      Except.bind, Except.ok.injEq, Prod.mk.injEq] at h
  case computedEquation equation common =>
    rcases he : equation.encode with e | bytes <;> rw [he] at h
    · exact absurd h (by simp)
    · simp only [Except.ok.injEq, Prod.mk.injEq] at h
      rw [← h.1]
      simp [make_int_length, encode_common_trailer_length, NULL_INT, make_float]
  all_goals
    rw [← h.1]
    simp [make_int_length, encode_common_trailer_length, NULL_INT, make_float]

/-- C3, counterexample to the stated 32-byte record length: the disabled
channel (a valid channel) encodes to 48 bytes, not 32. -/
theorem channel_record_length_not_32 :
    (DAQChannel.encode_with_aux (.disabled DAQChannelCommon.default) 0).map
        (fun p => p.1.length) = .ok 48 ∧ (48 : ℕ) ≠ 32 := by
  decide

/-- C3, witness: `channel_record_length` applied to the disabled channel. -/
theorem channel_record_length_witness :
    (DAQChannel.encode_with_aux (.disabled DAQChannelCommon.default) 0).map
      (fun p => p.1.length) = .ok 48 := by
  obtain ⟨rec, aux, h⟩ : ∃ rec aux,
      DAQChannel.encode_with_aux (.disabled DAQChannelCommon.default) 0 =
        .ok (rec, aux) := ⟨_, _, rfl⟩
  rw [h]
  simp [Except.map,
    channel_record_length (.disabled DAQChannelCommon.default) 0 rec aux h]

/-- C4: compiling `"C1 + C2"` succeeds with the opcode stream
`PUSH_CHANNEL 1, PUSH_CHANNEL 2, ADD, END`, whose encoding is
`01 00 01 01 00 02 06 00`. -/
theorem compile_c1_plus_c2 :
    (DAQEQuationCompiler.compile "C1 + C2").map (fun e => e.ops) =
        .ok [.PUSH_CHANNEL 1, .PUSH_CHANNEL 2, .ADD, .END] ∧
      (do
        let e ← DAQEQuationCompiler.compile "C1 + C2"
        e.encode : Except PyErr (List ℕ)) =
        .ok [0x01, 0x00, 0x01, 0x01, 0x00, 0x02, 0x06, 0x00] := by
  constructor <;> decide

/-- C7: on the five-child node built from `"c1 + c2 * c3"` (children
`C1, +, C2, *, C3`, adjusted precedences 1000 for `+` and 2000 for `*`),
the simplifier's selection loop picks index 3 — the `*`, the operator with
the *highest* adjusted precedence — whereas the claimed rule (lowest
adjusted precedence, leftmost on ties) picks index 1, the `+`; accordingly
the compiled program computes `(c1 + c2) * c3`. -/
theorem pivot_selects_highest_not_lowest :
    sum_product_children.bind find_best_operator = .ok (some 3) ∧
      sum_product_children.bind spec_lowest_pivot = .ok (some 1) ∧
      (DAQEQuationCompiler.compile "c1 + c2 * c3").map (fun e => e.ops) =
        .ok [.PUSH_CHANNEL 1, .PUSH_CHANNEL 2, .ADD, .PUSH_CHANNEL 3,
          .MULTIPLY, .END] := by
  refine ⟨by decide, by decide, by decide⟩

/-- Simulating one more opcode at the end of a sequence. -/
theorem simRun_append (d : ℤ) (l : List DAQEquationOperation)
    (op : DAQEquationOperation) :
    simRun d (l ++ [op]) = (simRun d l).bind (fun x => simOp x op) := by
  simp only [simRun, List.foldlM_append, List.foldlM_cons, List.foldlM_nil]
  cases List.foldlM simOp d l <;> simp

/-- Inversion of a successful `push_op`: the builder was still open, the
opcode's pops fit under the effective depth, and the state is the recorded
update. -/
theorem push_op_spec (e e' : DAQEquation) (op : DAQEquationOperation)
    (h : e.push_op op = .ok e') :
    e.has_end = false ∧
      ¬(e.stack_depth + e.input_stack_depth < op.get_opcode.config.pops) ∧
      e' = { e with
        ops := e.ops ++ [op]
        stack_depth := e.stack_depth - op.get_opcode.config.pops +
          op.get_opcode.config.pushes
        max_stack_depth := max e.max_stack_depth
          (e.stack_depth - op.get_opcode.config.pops +
            op.get_opcode.config.pushes) } := by
  simp only [DAQEquation.push_op] at h
  split at h
  · exact absurd h (by simp)
  · split at h
    · exact absurd h (by simp)
    · refine ⟨by simp_all, by assumption, ?_⟩
      simp only [Except.ok.injEq] at h
      exact h.symm

/-- A successful `push_op` preserves the builder invariant. -/
theorem push_op_inv (e e' : DAQEquation) (op : DAQEquationOperation)
    (hinv : EqBuilderInv e) (h : e.push_op op = .ok e') : EqBuilderInv e' := by
  obtain ⟨hin, hnn, hsim, _⟩ := hinv
  obtain ⟨hend, hfit, he'⟩ := push_op_spec e e' op h
  subst he'
  refine ⟨hin, ?_, ?_, by simp [hend]⟩
  · show 0 ≤ e.stack_depth - op.get_opcode.config.pops +
      op.get_opcode.config.pushes
    omega
  · show simRun 0 (e.ops ++ [op]) =
      some (e.stack_depth - op.get_opcode.config.pops +
        op.get_opcode.config.pushes)
    rw [simRun_append, hsim]
    simp only [Option.bind, simOp]
    rw [if_neg (by omega)]

/-- `push_op` fails with a `ConfigError` whenever the opcode pops more than
the effective stack depth. -/
theorem push_op_underflow (e : DAQEquation) (op : DAQEquationOperation)
    (h : e.stack_depth + e.input_stack_depth <
      (op.get_opcode.config.pops : ℤ)) :
    ∃ msg, e.push_op op = .error (.configError msg) := by
  by_cases hend : e.has_end = true
  · refine ⟨"Cannot add operation to equation after end opcode", ?_⟩
    simp [DAQEquation.push_op, hend]
  · refine ⟨"Stack underflow for opcode", ?_⟩
    simp only [Bool.not_eq_true] at hend
    simp [DAQEquation.push_op, hend, if_pos h]

/-- Each public builder call preserves the builder invariant. -/
theorem applyCall_inv (e e' : DAQEquation) (c : BuilderCall)
    (hinv : EqBuilderInv e) (h : applyCall e c = .ok e') : EqBuilderInv e' := by
  cases c
  case push_channel n =>
    simp only [applyCall, DAQEquation.push_channel, bind, Except.bind] at h
    rcases hp : e.push_op (.PUSH_CHANNEL n) with err | e1 <;> rw [hp] at h
    · simp at h
    · simp only [Except.ok.injEq] at h
      rw [← h]
      exact push_op_inv e e1 _ hinv hp
  case push_float v =>
    exact push_op_inv e e' _ hinv h
  case push_double v =>
    exact push_op_inv e e' _ hinv h
  case endCall =>
    simp only [applyCall, DAQEquation.endOp] at h
    split at h
    · exact absurd h (by simp)
    · rcases hp : e.push_op .END with err | e1 <;> rw [hp] at h
      · simp [bind, Except.bind] at h
      · simp only [bind, Except.bind, Except.ok.injEq] at h
        obtain ⟨hin, hnn, hsim, _⟩ := hinv
        obtain ⟨hend, hfit, he1⟩ := push_op_spec e e1 _ hp
        have hdepth : ¬e.stack_depth ≠ 1 := by assumption
        have hdepth1 : e.stack_depth = 1 := by omega
        rw [← h]
        subst he1
        refine ⟨hin, ?_, ?_, ?_⟩
        · show 0 ≤ e.stack_depth - (DAQEquationOperation.END).get_opcode.config.pops +
            (DAQEquationOperation.END).get_opcode.config.pushes
          simp only [DAQEquationOperation.get_opcode, DAQEquationOpcode.config]
          omega
        · show simRun 0 (e.ops ++ [.END]) =
            some (e.stack_depth - (DAQEquationOperation.END).get_opcode.config.pops +
              (DAQEquationOperation.END).get_opcode.config.pushes)
          rw [simRun_append, hsim]
          simp only [Option.bind, simOp, DAQEquationOperation.get_opcode,
            DAQEquationOpcode.config]
          rw [if_neg (by omega)]
        · intro _
          refine ⟨e.ops, rfl, ?_⟩
          rw [hsim, hdepth1]
  all_goals exact push_op_inv e e' _ hinv h

/-- Running builder calls from an invariant-satisfying state preserves the
invariant. -/
theorem foldlM_applyCall_inv (calls : List BuilderCall) :
    ∀ (e0 e : DAQEquation), EqBuilderInv e0 →
      calls.foldlM applyCall e0 = .ok e → EqBuilderInv e := by
  induction calls with
  | nil =>
    intro e0 e h0 h
    simp only [List.foldlM_nil, pure, Except.pure, Except.ok.injEq] at h
    rwa [← h]
  | cons c cs ih =>
    intro e0 e h0 h
    rw [List.foldlM_cons] at h
    rcases hc : applyCall e0 c with err | e1 <;> rw [hc] at h
    · simp [bind, Except.bind] at h
    · simp only [bind, Except.bind] at h
      exact ih e1 e (applyCall_inv e0 e1 c h0 hc) h

/-- C2: (1) every equation built by a sequence of public push/operator/end
calls that raises no error simulates from the empty stack without ever
popping more elements than are present, and when `END` has been appended
the simulated depth just before it is exactly 1; (2) any single call whose
opcode pops more than the current simulated depth returns a configuration
error (so the equation state is left unchanged). -/
theorem equation_builder_stack_safety :
    (∀ (calls : List BuilderCall) (e : DAQEquation), runCalls calls = .ok e →
        (simRun 0 e.ops).isSome = true ∧
        (e.has_end = true →
          ∃ pre, e.ops = pre ++ [.END] ∧ simRun 0 pre = some 1)) ∧
    (∀ (e : DAQEquation) (c : BuilderCall), e.input_stack_depth = 0 →
        0 ≤ e.stack_depth →
        e.stack_depth < (c.operation.get_opcode.config.pops : ℤ) →
        ∃ msg, applyCall e c = .error (.configError msg)) := by
  constructor
  · intro calls e h
    have h0 : EqBuilderInv (DAQEquation.new 0) := by
      refine ⟨rfl, by simp [DAQEquation.new], by simp [DAQEquation.new, simRun], ?_⟩
      intro hend
      simp [DAQEquation.new] at hend
    obtain ⟨_, _, hsim, hpre⟩ :=
      foldlM_applyCall_inv calls (DAQEquation.new 0) e h0 h
    exact ⟨by simp [hsim], hpre⟩
  · intro e c hin hnn hlt
    cases c
    case push_channel n =>
      exfalso
      simp only [BuilderCall.operation, DAQEquationOperation.get_opcode,
        DAQEquationOpcode.config] at hlt
      omega
    case push_float v =>
      exfalso
      simp only [BuilderCall.operation, DAQEquationOperation.get_opcode,
        DAQEquationOpcode.config] at hlt
      omega
    case push_double v =>
      exfalso
      simp only [BuilderCall.operation, DAQEquationOperation.get_opcode,
        DAQEquationOpcode.config] at hlt
      omega
    case endCall =>
      have hne : e.stack_depth ≠ 1 := by
        simp only [BuilderCall.operation, DAQEquationOperation.get_opcode,
          DAQEquationOpcode.config] at hlt
        omega
      refine ⟨"Invalid stack depth at end of equation", ?_⟩
      simp only [applyCall, DAQEquation.endOp]
      rw [if_pos hne]
    all_goals
      refine push_op_underflow e _ ?_
      simp only [BuilderCall.operation, DAQEquationOperation.get_opcode,
        DAQEquationOpcode.config] at hlt ⊢
      omega

/-- C2, witness: building `c1` then `end` succeeds and its opcodes simulate
without underflow; a lone `add` on a fresh builder underflows with a
configuration error. -/
theorem equation_builder_stack_safety_witness :
    (runCalls [.push_channel 1, .endCall]).map
        (fun e => (simRun 0 e.ops).isSome) = .ok true ∧
      (∃ msg, applyCall (DAQEquation.new 0) .add =
        .error (.configError msg)) := by
  constructor
  · obtain ⟨e, he⟩ : ∃ e, runCalls [.push_channel 1, .endCall] = .ok e :=
      ⟨_, rfl⟩
    rw [he]
    simpa [Except.map] using
      (equation_builder_stack_safety.1 [.push_channel 1, .endCall] e he).1
  · exact equation_builder_stack_safety.2 (DAQEquation.new 0) .add rfl
      (by decide) (by decide)

/-- C1: (1) every payload `set_config` accepts (returns without error) is
exactly 2492 bytes; and for every configuration within the channel-count
limits whose channel loops succeed, (2) an assembled
header-plus-records-plus-auxiliary-region longer than 2492 bytes makes
`set_config` raise a configuration error before anything is sent, while
(3) one of at most 2492 bytes is accepted, right-padded with zero bytes to
exactly the envelope. -/
theorem set_config_envelope (config : DAQConfiguration) :
    (∀ p, (set_config config).1 = .ok p → p.length = CHANNEL_PAYLOAD_LENGTH) ∧
    (∀ r1 r2 : List ℕ × List ℕ × Bool × Bool,
      config.analog_channels.length ≤ 20 →
      config.computed_channels.length ≤ 10 →
      set_config_channels_loop
        (config.analog_channels ++
          List.replicate (20 - config.analog_channels.length) none)
        (set_config_header config) [] false false = .ok r1 →
      set_config_channels_loop
        (config.computed_channels ++
          List.replicate (10 - config.computed_channels.length) none)
        r1.1 r1.2.1 false r1.2.2.2 = .ok r2 →
      (CHANNEL_PAYLOAD_LENGTH < r2.1.length + r2.2.1.length →
        (set_config config).1 =
          .error (.configError "Payload too large (too many equations?)")) ∧
      (r2.1.length + r2.2.1.length ≤ CHANNEL_PAYLOAD_LENGTH →
        (set_config config).1 =
          .ok ((r2.1 ++ r2.2.1) ++
            List.replicate
              (CHANNEL_PAYLOAD_LENGTH - (r2.1.length + r2.2.1.length)) 0))) := by
  constructor
  · intro p h
    by_cases h20 : 20 < config.analog_channels.length
    · rw [set_config, if_pos h20] at h
      exact absurd h (by simp)
    · rw [set_config, if_neg h20] at h
      by_cases h10 : 10 < config.computed_channels.length
      · rw [if_pos h10] at h
        exact absurd h (by simp)
      · rw [if_neg h10] at h
        replace h : set_config_payload_calc config
            (config.analog_channels ++
              List.replicate (20 - config.analog_channels.length) none)
            (config.computed_channels ++
              List.replicate (10 - config.computed_channels.length) none) =
            .ok p := h
        rw [set_config_payload_calc] at h
        split at h
        · exact absurd h (by simp)
        · split at h
          · exact absurd h (by simp)
          · dsimp only at h
            split at h
            · exact absurd h (by simp)
            · next hle =>
              simp only [Except.ok.injEq] at h
              rw [← h]
              simp only [CHANNEL_PAYLOAD_LENGTH, List.length_append,
                List.length_replicate] at hle ⊢
              push_cast at hle
              omega
  · intro r1 r2 h20 h10 hl1 hl2
    have h20' : ¬(20 < config.analog_channels.length) := by omega
    have h10' : ¬(10 < config.computed_channels.length) := by omega
    rcases r1 with ⟨p1, a1, b1, c1⟩
    rcases r2 with ⟨p2, a2, b2, c2⟩
    dsimp only at hl2
    have hbase : (set_config config).1 =
        set_config_payload_calc config
          (config.analog_channels ++
            List.replicate (20 - config.analog_channels.length) none)
          (config.computed_channels ++
            List.replicate (10 - config.computed_channels.length) none) := by
      rw [set_config, if_neg h20', if_neg h10']
    constructor <;> intro hlen <;>
      (rw [hbase, set_config_payload_calc, hl1]
       dsimp only
       rw [hl2]
       dsimp only) <;>
      dsimp only at hlen
    · have hc : (CHANNEL_PAYLOAD_LENGTH : ℤ) - ((p2 ++ a2).length : ℤ) < 0 := by
        simp only [CHANNEL_PAYLOAD_LENGTH, List.length_append] at hlen ⊢
        push_cast
        omega
      rw [if_pos hc]
    · have hc : ¬((CHANNEL_PAYLOAD_LENGTH : ℤ) - ((p2 ++ a2).length : ℤ) < 0) := by
        simp only [CHANNEL_PAYLOAD_LENGTH, List.length_append] at hlen ⊢
        push_cast
        omega
      rw [if_neg hc, List.length_append]

set_option maxRecDepth 40000 in
/-- C1, witness: the minimal configuration (no user channels) is accepted
with a payload of exactly 2492 bytes, and the overfull configuration (one
equation channel of 1201 bytecode bytes, assembling to 2693 bytes) is
rejected with the configuration error. -/
theorem set_config_envelope_witness :
    (set_config example_min_config).1.map List.length = .ok 2492 ∧
      (set_config example_overfull_config).1 =
        .error (.configError "Payload too large (too many equations?)") := by
  constructor
  · obtain ⟨p, hp⟩ : ∃ p, (set_config example_min_config).1 = .ok p := ⟨_, rfl⟩
    rw [hp]
    simpa [Except.map] using
      (set_config_envelope example_min_config).1 p hp
  · exact (((set_config_envelope example_overfull_config).2 _ _
      (by decide) (by decide) rfl rfl).1 (by decide))

/-- C10: `set_config` pads the caller's channel-list objects in place —
after the call the analog list is the original entries followed by `None`
slots up to length 20 (so it is no longer the original list contents), and
likewise the computed list up to length 10. -/
theorem set_config_pads_channel_lists (config : DAQConfiguration) :
    (config.analog_channels.length < 20 →
      (set_config config).2.1 =
        config.analog_channels ++
          List.replicate (20 - config.analog_channels.length) none ∧
      (set_config config).2.1.length = 20 ∧
      (set_config config).2.1 ≠ config.analog_channels) ∧
    (config.analog_channels.length ≤ 20 →
      config.computed_channels.length < 10 →
      (set_config config).2.2 =
        config.computed_channels ++
          List.replicate (10 - config.computed_channels.length) none ∧
      (set_config config).2.2.length = 10 ∧
      (set_config config).2.2 ≠ config.computed_channels) := by
  have hne : ∀ (l : List (Option DAQChannel)) (n : ℕ), 0 < n →
      l ++ List.replicate n (none : Option DAQChannel) ≠ l := by
    intro l n hn heq
    have := congrArg List.length heq
    simp only [List.length_append, List.length_replicate] at this
    omega
  constructor
  · intro h20
    have h20' : ¬(20 < config.analog_channels.length) := by omega
    rw [set_config, if_neg h20']
    by_cases h10 : 10 < config.computed_channels.length
    · rw [if_pos h10]
      refine ⟨rfl, ?_, hne _ _ (by omega)⟩
      simp only [List.length_append, List.length_replicate]
      omega
    · rw [if_neg h10]
      refine ⟨rfl, ?_, hne _ _ (by omega)⟩
      simp only [List.length_append, List.length_replicate]
      omega
  · intro h20 h10
    have h20' : ¬(20 < config.analog_channels.length) := by omega
    have h10' : ¬(10 < config.computed_channels.length) := by omega
    rw [set_config, if_neg h20', if_neg h10']
    refine ⟨rfl, ?_, hne _ _ (by omega)⟩
    simp only [List.length_append, List.length_replicate]
    omega

/-- C10, witness: a configuration with one analog channel comes back from
`set_config` with its analog list extended in place to 20 entries and its
computed list to 10. -/
theorem set_config_pads_channel_lists_witness :
    (set_config example_short_config).2.1 =
        example_short_config.analog_channels ++
          List.replicate
            (20 - example_short_config.analog_channels.length) none ∧
      (set_config example_short_config).2.1.length = 20 ∧
      (set_config example_short_config).2.2.length = 10 := by
  have h1 := (set_config_pads_channel_lists example_short_config).1 (by decide)
  have h2 := (set_config_pads_channel_lists example_short_config).2
    (by decide) (by decide)
  exact ⟨h1.1, h1.2.1, h2.2.1⟩

/-- C5, counterexample to the claimed chunk layout: on a concrete
single-chunk payload whose byte pair at offset 12 is `00 FF` and at the
claimed DIO offset 16 is `12 34`, `get_readings` decodes DIO = 0x00FF
(offset 12), not the 0x1234 the claimed layout (offset 16) would give. -/
theorem get_readings_layout_cex :
    (get_readings_decode example_now example_readings_payload).map
        (fun res => res.readings.map (fun r => r.dio)) = .ok [0x00FF] ∧
      (get_readings_decode_claimed example_now example_readings_payload).map
        (fun res => res.readings.map (fun r => r.dio)) = .ok [0x1234] ∧
      (0x00FF : ℕ) ≠ 0x1234 := by
  refine ⟨by decide, by decide, by decide⟩

/-- Reading `j` of a successful chunk loop comes from `decode_chunk` at
index `i + j`. -/
theorem decode_chunks_loop_get (now : PyDatetime) (buf : List ℕ) (cl : ℕ) :
    ∀ (remaining i : ℕ) (rs : List DAQReading),
      decode_chunks_loop now buf cl i remaining = .ok rs →
      ∀ (j : ℕ) (r : DAQReading), rs.get? j = some r →
        decode_chunk now buf cl (i + j) = .ok r := by
  intro remaining
  induction remaining with
  | zero =>
    intro i rs h j r hj
    simp only [decode_chunks_loop, Except.ok.injEq] at h
    rw [← h] at hj
    simp at hj
  | succ n ih =>
    intro i rs h j r hj
    rw [decode_chunks_loop] at h
    rcases hc : decode_chunk now buf cl i with e | r0 <;> rw [hc] at h
    · simp [bind, Except.bind] at h
    · rcases hrest : decode_chunks_loop now buf cl (i + 1) n with e | rest <;>
        rw [hrest] at h
      · simp [bind, Except.bind] at h
      · simp only [bind, Except.bind, Except.ok.injEq] at h
        rw [← h] at hj
        cases j with
        | zero =>
          simp only [List.get?, Option.some.injEq] at hj
          rw [Nat.add_zero, hc, hj]
        | succ k =>
          simp only [List.get?] at hj
          have := ih (i + 1) rest hrest k r hj
          rwa [show i + (k + 1) = i + 1 + k by omega]

/-- C5 (amended): every reading decoded by `get_readings` takes its fields
from its chunk at the offsets the code uses — 0x10 marker at 0, packed
time at 4 (whose trailing milliseconds word reads chunk bytes 12–16), u16
DIO at 12, u32 alarm-1 at 16, u32 alarm-2 at 20, u32 totalizer at 24, and
4-byte floats from offset 28 to the end of the chunk. -/
theorem get_readings_chunk_layout (now : PyDatetime) (data : List ℕ)
    (res : DAQReadingResult) (j : ℕ) (r : DAQReading)
    (h : get_readings_decode now data = .ok res)
    (hj : res.readings.get? j = some r) :
    parse_int (chunk_slice data j) = 0x10 ∧
      parse_time now ((chunk_slice data j).drop 4) = .ok r.time ∧
      r.dio = parse_short ((chunk_slice data j).drop 12) ∧
      r.alarm1_bitmask = parse_int ((chunk_slice data j).drop 16) ∧
      r.alarm2_bitmask = parse_int ((chunk_slice data j).drop 20) ∧
      r.totalizer = parse_int ((chunk_slice data j).drop 24) ∧
      chunk_values (chunk_slice data j) = .ok r.values := by
  rw [get_readings_decode] at h
  rcases hl : decode_chunks_loop now (data.drop 12) (parse_int data) 0
      (parse_int (data.drop 4)) with e | rs <;> rw [hl] at h
  · simp [bind, Except.bind] at h
  · simp only [bind, Except.bind, Except.ok.injEq] at h
    rw [← h] at hj
    have hck := decode_chunks_loop_get now (data.drop 12) (parse_int data)
      (parse_int (data.drop 4)) 0 rs hl j r hj
    rw [Nat.zero_add] at hck
    rw [decode_chunk] at hck
    split at hck
    · simp at hck
    · next hmark =>
      rw [Decidable.not_not] at hmark
      rcases ht : parse_time now
          ((((data.drop 12).drop (j * parse_int data)).take
            (parse_int data)).drop 4) with e | time <;> rw [ht] at hck
      · simp [bind, Except.bind] at hck
      · rcases hv : chunk_values
            (((data.drop 12).drop (j * parse_int data)).take
              (parse_int data)) with e | values <;> rw [hv] at hck
        · simp [bind, Except.bind] at hck
        · simp only [bind, Except.bind, pure, Except.pure, Except.ok.injEq] at hck
          rw [← hck]
          exact ⟨hmark, by rw [chunk_slice, ht], rfl, rfl, rfl, rfl,
            by rw [chunk_slice, hv]⟩

/-- C5, witness: `get_readings_chunk_layout` applied to the concrete
example payload (one 44-byte chunk), reading index 0. -/
theorem get_readings_chunk_layout_witness :
    ∃ res r,
      get_readings_decode example_now example_readings_payload = .ok res ∧
        res.readings.get? 0 = some r ∧
        r.dio = parse_short ((chunk_slice example_readings_payload 0).drop 12) ∧
        r.totalizer = parse_int ((chunk_slice example_readings_payload 0).drop 24) := by
  obtain ⟨res, r, hres, hr⟩ : ∃ res r,
      get_readings_decode example_now example_readings_payload = .ok res ∧
        res.readings.get? 0 = some r :=
    ⟨_, _, rfl, rfl⟩
  have H := get_readings_chunk_layout example_now example_readings_payload
    res 0 r hres hr
  exact ⟨res, r, hres, hr, H.2.2.1, H.2.2.2.2.2.1⟩

/-- `parse_int` inverts `make_int` on 4-byte values. -/
theorem parse_int_make_int_4 (v : ℕ) (hv : v < 4294967296) :
    parse_int (make_int (v : ℤ) 4) = v := by
  have h4 : List.range 4 = [0, 1, 2, 3] := rfl
  simp [make_int, parse_int, h4, Int.toNat_natCast]
  omega

/-- C8: for every millisecond-granularity datetime whose year lies in the
century the decoder reconstructs from the host clock (the previous year's
century under the December/January rollover), decoding the packed time
plus the appended milliseconds word returns the datetime unchanged:
`parse_time (make_time t ++ make_int (t.microsecond / 1000)) = t`. -/
theorem parse_make_time_roundtrip (t now : PyDatetime)
    (hy1 : 1 ≤ t.year) (hy2 : t.year ≤ 9999)
    (hm1 : 1 ≤ t.month) (hm2 : t.month ≤ 12)
    (hd1 : 1 ≤ t.day) (hd2 : t.day ≤ days_in_month t.year t.month)
    (hh : t.hour ≤ 23) (hmin : t.minute ≤ 59) (hs : t.second ≤ 59)
    (hus : t.microsecond ≤ 999999) (hms : t.microsecond % 1000 = 0)
    (hcent :
      (if t.month = 12 ∧ now.month = 1 then (now.year : ℤ) - 1
          else (now.year : ℤ)) -
        (if t.month = 12 ∧ now.month = 1 then (now.year : ℤ) - 1
          else (now.year : ℤ)) % 100 =
      (t.year : ℤ) - (t.year : ℤ) % 100) :
    parse_time now (make_time t ++ make_int ((t.microsecond / 1000 : ℕ) : ℤ) 4) =
      .ok t := by
  obtain ⟨ty, tmo, td, th, tmi, ts, tus⟩ := t
  simp only at hy1 hy2 hm1 hm2 hd1 hd2 hh hmin hs hus hms hcent
  rw [parse_time, make_time]
  simp only [byteAt, List.get?, List.cons_append, List.nil_append,
    bind, Except.bind]
  have hdrop : List.drop 8
      (th :: tmi :: ts :: tmo :: 0 :: td :: ty % 100 :: 0 ::
        make_int ((tus / 1000 : ℕ) : ℤ) 4) = make_int ((tus / 1000 : ℕ) : ℤ) 4 := rfl
  rw [hdrop, parse_int_make_int_4 _ (by omega)]
  have hmask : tus / 1000 &&& 65535 = tus / 1000 := by
    have hx := Nat.and_pow_two_sub_one_eq_mod (tus / 1000) 16
    norm_num at hx
    omega
  rw [hmask]
  have hm1000 : tus / 1000 * 1000 = tus := by omega
  rw [hm1000, hcent]
  have hyear : ((ty : ℤ) - (ty : ℤ) % 100 + ((ty % 100 : ℕ) : ℤ)) = (ty : ℤ) := by
    push_cast
    omega
  rw [hyear, pyDatetime]
  rw [if_pos]
  · simp [Int.toNat_natCast]
  · refine ⟨by exact_mod_cast hy1, by exact_mod_cast hy2, hm1, hm2, hd1, ?_,
      hh, hmin, hs, hus⟩
    rw [Int.toNat_natCast]
    exact hd2

/-- C8, witness: 12:34:56.789 on 2025-03-04 round-trips against the host
clock 2025-10-12. -/
theorem parse_make_time_roundtrip_witness :
    parse_time example_now
        (make_time ⟨2025, 3, 4, 12, 34, 56, 789000⟩ ++
          make_int ((789000 / 1000 : ℕ) : ℤ) 4) =
      .ok ⟨2025, 3, 4, 12, 34, 56, 789000⟩ :=
  parse_make_time_roundtrip ⟨2025, 3, 4, 12, 34, 56, 789000⟩ example_now
    (by decide) (by decide) (by decide) (by decide) (by decide) (by decide)
    (by decide) (by decide) (by decide) (by decide) (by decide) (by decide)
